import Mathlib

/-!
# omnipos-payment-service: payment creation, lookup and listing

A shallow embedding of

* `internal/payment/usecase/usecase.go`   (`paymentUseCase.Create`, `Get`, `List`),
* `internal/payment/repository/postgres.go` (`postgresRepo.Create`, `Get`, `GetByOrderID`,
  `List`, `paymentModel.toProto`),
* `internal/payment/handler/handler.go`   (`PaymentHandler.CreatePayment`, `GetPayment`,
  `ListPayments`, `getMerchantID`),

followed by theorems about them.

Conventions of the embedding.

* A Go result `(*T, error)` is a pair `Option T × Option error`; `none` is `nil`.
* The database handle `r.db` is an explicit state `DB` that every call threads through:
  the `payments` table, the script of outcomes of the coming driver calls (an I/O failure
  or a normal execution) and the log of the driver calls made so far.
* `uuid.New()` and `time.Now()` read the environment; the value each one yields is an
  argument of the function that calls it.
* Logger calls have no effect on results or on the store and are left out.
* `int32` values are integers, and `int32` arithmetic is reduced by `wrapInt32`.
-/

namespace Omnipos

/-! ## Values of the Go program -/

/-- A Go `float64`: not-a-number, an infinity, or the finite value
`(-1)^neg * mant * 2^exp` (so `neg = true, mant = 0` is the negative zero). -/
inductive Float64 where
  | nan
  | inf (neg : Bool)
  | fin (neg : Bool) (mant : Nat) (exp : Int)
  deriving DecidableEq, Repr

/-- The value is `+0` or `-0`. -/
def Float64.isZero : Float64 → Bool
  | .fin _ mant _ => mant == 0
  | _ => false

/-- The value is strictly below zero. -/
def Float64.isNegative : Float64 → Bool
  | .nan => false
  | .inf neg => neg
  | .fin neg mant _ => neg && mant != 0

/-- Go `x > 0` on a `float64`; false on NaN. -/
def Float64.gtZero : Float64 → Bool
  | .nan => false
  | .inf neg => !neg
  | .fin neg mant _ => !neg && mant != 0

/-- Go `x <= 0` on a `float64`; false on NaN. -/
def Float64.leZero : Float64 → Bool
  | .nan => false
  | .inf neg => neg
  | .fin neg mant _ => neg || mant == 0

/-- Reduction of an integer to the `int32` range by two's-complement wraparound. -/
def wrapInt32 (x : Int) : Int := (x + 2147483648) % 4294967296 - 2147483648

/-- The integer is a value of type `int32`. -/
def isInt32 (x : Int) : Prop := -2147483648 ≤ x ∧ x ≤ 2147483647

instance (x : Int) : Decidable (isInt32 x) := by unfold isInt32; infer_instance

/-- A Go `time.Time`, as nanoseconds since the Unix epoch. -/
structure Time where
  unixNano : Int
  deriving DecidableEq, Repr

/-- A protobuf `timestamppb.Timestamp`. -/
structure Timestamp where
  seconds : Int
  nanos : Int
  deriving DecidableEq, Repr

/-- Go `timestamppb.New(t)`. -/
def timestamppb.New (t : Time) : Timestamp :=
  { seconds := t.unixNano / 1000000000, nanos := t.unixNano % 1000000000 }

/-- A Go `error`. `sqlErrNoRows` is the sentinel `sql.ErrNoRows`, which the code compares
by identity; every other error is a message (`errors.New`, `fmt.Errorf`, driver errors). -/
inductive error where
  | sqlErrNoRows
  | new (msg : String)
  deriving DecidableEq, Repr

/-- Go `err.Error()`. -/
def error.Error : error → String
  | .sqlErrNoRows => "sql: no rows in result set"
  | .new msg => msg

/-- Go `errors.New`. -/
def errors.New (msg : String) : error := .new msg

/-! ## The protobuf messages

The generated package `omnipos-proto/.../payment/v1` is imported, not part of the
repository; the messages are modelled with the fields the code reads and writes. -/

/-- The enum `paymentv1.PaymentMethod`, an `int32`. -/
abbrev PaymentMethod := Int

/-- The enum `paymentv1.PaymentStatus`, an `int32`. -/
abbrev PaymentStatus := Int

/-- Modelled from the spec: the generated enum constants are declared in the imported
proto package. The "unspecified" sentinel of `PaymentMethod` is the zero value. -/
def PaymentMethod_PAYMENT_METHOD_UNSPECIFIED : PaymentMethod := 0

/-- Modelled from the spec: the "unspecified" sentinel of `PaymentStatus` is the zero
value. -/
def PaymentStatus_PAYMENT_STATUS_UNSPECIFIED : PaymentStatus := 0

/-- Modelled from the spec: `status` is "one of {unspecified, success, failed, pending,
...}"; `success` is taken as the value after the sentinel. No theorem depends on the
number. -/
def PaymentStatus_PAYMENT_STATUS_SUCCESS : PaymentStatus := 1

/-- The message `paymentv1.Payment`. The two timestamps are pointers, `nil` until the
store sets them. -/
structure Payment where
  Id : String
  MerchantId : String
  OrderId : String
  Amount : Float64
  PaymentMethod : PaymentMethod
  Status : PaymentStatus
  ReferenceNumber : String
  Provider : String
  CreatedAt : Option Timestamp
  UpdatedAt : Option Timestamp
  deriving DecidableEq, Repr

/-- The message `paymentv1.CreatePaymentRequest`. -/
structure CreatePaymentRequest where
  OrderId : String
  Amount : Float64
  PaymentMethod : PaymentMethod
  ReferenceNumber : String
  Provider : String
  deriving DecidableEq, Repr

/-- The message `paymentv1.GetPaymentRequest`. -/
structure GetPaymentRequest where
  Id : String
  OrderId : String
  deriving DecidableEq, Repr

/-- The message `paymentv1.ListPaymentsRequest`; `Page` and `PageSize` are `int32`. -/
structure ListPaymentsRequest where
  OrderId : String
  PaymentMethod : PaymentMethod
  Status : PaymentStatus
  Page : Int
  PageSize : Int
  deriving DecidableEq, Repr

/-- The message `paymentv1.ListPaymentsResponse`. -/
structure ListPaymentsResponse where
  Payments : List Payment
  Total : Int
  Page : Int
  PageSize : Int
  deriving DecidableEq, Repr

/-- The message `paymentv1.CreatePaymentResponse`; `Payment` is a pointer. -/
structure CreatePaymentResponse where
  Payment : Option Payment
  deriving DecidableEq, Repr

/-- The message `paymentv1.GetPaymentResponse`; `Payment` is a pointer. -/
structure GetPaymentResponse where
  Payment : Option Payment
  deriving DecidableEq, Repr

/-! ## UUIDs -/

/-- A `uuid.UUID`: sixteen bytes. -/
structure UUID where
  byte : Fin 16 → Fin 256

/-- One lower-case hexadecimal digit. -/
def hexDigit (n : Nat) : Char :=
  "0123456789abcdef".toList.getD (n % 16) '0'

/-- The two hexadecimal digits of byte `i`. -/
def UUID.hex (u : UUID) (i : Fin 16) : List Char :=
  [hexDigit ((u.byte i).val / 16), hexDigit ((u.byte i).val % 16)]

/-- Go `(uuid.UUID).String()`: the form `xxxxxxxx-xxxx-xxxx-xxxx-xxxxxxxxxxxx`. -/
def UUID.String (u : UUID) : String :=
  String.mk (u.hex 0 ++ u.hex 1 ++ u.hex 2 ++ u.hex 3 ++ ['-'] ++ u.hex 4 ++ u.hex 5 ++ ['-']
    ++ u.hex 6 ++ u.hex 7 ++ ['-'] ++ u.hex 8 ++ u.hex 9 ++ ['-']
    ++ u.hex 10 ++ u.hex 11 ++ u.hex 12 ++ u.hex 13 ++ u.hex 14 ++ u.hex 15)

/-! ## The database

`sqlx.DB` over PostgreSQL is outside the repository. It is modelled as an engine that
understands exactly the statements this program issues: the three fixed statements of
`Create`, `Get` and `GetByOrderID` (recognised by their text) and the two statements that
`List` assembles (parsed). Columns keep the bound values unchanged and a table scan
returns rows in insertion order. The declaration of the `payments` table is not in the
repository: whether it carries `UNIQUE (order_id)` is the parameter `uniqueOrderID`.
Every driver call first consumes the next entry of `outcomes`; `some e` makes the call
fail with `e` (an I/O failure) and leaves the table alone. -/

/-- A value bound to a placeholder (an element of `args ...interface{}`). -/
inductive Value where
  | str (s : String)
  | int (n : Int)
  | float (f : Float64)
  | time (t : Time)
  deriving DecidableEq, Repr

/-- The scan target `paymentModel`; also the shape of a stored row. The two nullable
columns are pointers. -/
structure paymentModel where
  ID : String
  MerchantID : String
  OrderID : String
  Amount : Float64
  PaymentMethod : Int
  Status : Int
  ReferenceNumber : Option String
  Provider : Option String
  CreatedAt : Time
  UpdatedAt : Time
  deriving DecidableEq, Repr

/-- One call of the driver, with the statement text and the bound arguments. -/
inductive DBCall where
  | exec (query : String) (args : List Value)
  | get (query : String) (args : List Value)
  | select (query : String) (args : List Value)
  deriving DecidableEq, Repr

/-- The database handle: the table, whether the table declares `UNIQUE (order_id)`, the
outcomes of the coming driver calls, and the log of the calls made (oldest first). -/
structure DB where
  payments : List paymentModel
  uniqueOrderID : Bool
  outcomes : List (Option error)
  calls : List DBCall
  deriving DecidableEq, Repr

/-- The scripted outcome of the next driver call: `some e` is an I/O failure with error
`e`, `none` a normal execution. -/
def DB.next (db : DB) : Option error := db.outcomes.head?.join

/-- The statement of `postgresRepo.Create`. -/
def insertQuery : String :=
  "\n\t\tINSERT INTO payments (\n\t\t\tid, merchant_id, order_id, amount, payment_method, status, reference_number, provider, created_at, updated_at\n\t\t) VALUES (\n\t\t\t$1, $2, $3, $4, $5, $6, $7, $8, $9, $10\n\t\t)\n\t"

/-- The statement of `postgresRepo.Get`. -/
def getQuery : String :=
  "\n\t\tSELECT id, merchant_id, order_id, amount, payment_method, status, reference_number, provider, created_at, updated_at\n\t\tFROM payments\n\t\tWHERE id = $1\n\t"

/-- The statement of `postgresRepo.GetByOrderID`. -/
def getByOrderIDQuery : String :=
  "\n\t\tSELECT id, merchant_id, order_id, amount, payment_method, status, reference_number, provider, created_at, updated_at\n\t\tFROM payments\n\t\tWHERE order_id = $1\n\t"

/-- The initial `query` of `postgresRepo.List`. -/
def listQueryBase : String :=
  "SELECT id, merchant_id, order_id, amount, payment_method, status, reference_number, provider, created_at, updated_at FROM payments WHERE 1=1"

/-- The initial `countQuery` of `postgresRepo.List`. -/
def countQueryBase : String := "SELECT count(*) FROM payments WHERE 1=1"

/-- Start of a driver call: log it and consume the next scripted outcome. -/
def DB.enter (db : DB) (c : DBCall) : DB × Option error :=
  ({ db with outcomes := db.outcomes.tail, calls := db.calls ++ [c] }, db.next)

/-- Removes the literal `lit` from the front of `s`. -/
def dropLit : List Char → List Char → Option (List Char)
  | [], s => some s
  | _ :: _, [] => none
  | p :: ps, c :: cs => if p = c then dropLit ps cs else none

/-- The number written by a list of decimal digits. -/
def digitsValue (ds : List Char) : Nat :=
  ds.foldl (fun acc c => acc * 10 + (c.toNat - 48)) 0

/-- Reads a placeholder `$k`. -/
def parsePlaceholder (s : List Char) : Option (Nat × List Char) :=
  match s with
  | '$' :: rest =>
    match rest.span Char.isDigit with
    | ([], _) => none
    | (ds, rest) => some (digitsValue ds, rest)
  | _ => none

/-- The columns that a filter of `List` can name. -/
inductive Column where
  | order_id
  | payment_method
  | status
  deriving DecidableEq, Repr

/-- The column name in the statement text. -/
def Column.name : Column → String
  | .order_id => "order_id"
  | .payment_method => "payment_method"
  | .status => "status"

/-- Reads ` AND <col> = $k` for the given column. -/
def parseFilterOn (col : Column) (s : List Char) : Option ((Column × Nat) × List Char) :=
  match dropLit (" AND " ++ col.name ++ " = ").toList s with
  | none => none
  | some rest =>
    match parsePlaceholder rest with
    | none => none
    | some (k, rest) => some ((col, k), rest)

/-- Reads one condition ` AND <col> = $k`. -/
def parseFilter (s : List Char) : Option ((Column × Nat) × List Char) :=
  (parseFilterOn .order_id s).orElse fun _ =>
  (parseFilterOn .payment_method s).orElse fun _ => parseFilterOn .status s

/-- Reads the conditions that follow `WHERE 1=1`, as many as there are (`fuel` bounds
their number), and returns them with the rest of the text. -/
def parseFilters : Nat → List Char → List (Column × Nat) × List Char
  | 0, s => ([], s)
  | fuel + 1, s =>
    match parseFilter s with
    | none => ([], s)
    | some (c, rest) => ((parseFilters fuel rest).1.cons c, (parseFilters fuel rest).2)

/-- Reads the tail ` LIMIT $a OFFSET $b`. -/
def parseLimitOffset (s : List Char) : Option (Nat × Nat) :=
  match dropLit " LIMIT ".toList s with
  | none => none
  | some rest =>
    match parsePlaceholder rest with
    | none => none
    | some (a, rest) =>
      match dropLit " OFFSET ".toList rest with
      | none => none
      | some rest =>
        match parsePlaceholder rest with
        | some (b, []) => some (a, b)
        | _ => none

/-- The argument bound to placeholder `$k`, that is `args[k-1]`. -/
def bindArg (args : List Value) (k : Nat) : Option Value :=
  if k = 0 then none else args.get? (k - 1)

/-- The row test of one condition `<col> = $k` under the bound arguments; `none` when
the placeholder has no argument or one of the wrong type. -/
def resolveFilter (args : List Value) : Column × Nat → Option (paymentModel → Bool)
  | (.order_id, k) =>
    match bindArg args k with
    | some (.str s) => some fun r => r.OrderID == s
    | _ => none
  | (.payment_method, k) =>
    match bindArg args k with
    | some (.int n) => some fun r => r.PaymentMethod == n
    | _ => none
  | (.status, k) =>
    match bindArg args k with
    | some (.int n) => some fun r => r.Status == n
    | _ => none

/-- The row test of a `WHERE 1=1 AND ... AND ...` predicate: the conjunction of its
conditions. -/
def wherePred (args : List Value) : List (Column × Nat) → Option (paymentModel → Bool)
  | [] => some fun _ => true
  | c :: cs =>
    match resolveFilter args c, wherePred args cs with
    | some p, some q => some fun r => p r && q r
    | _, _ => none

/-- The highest placeholder number among the conditions. -/
def maxPlaceholder (cs : List (Column × Nat)) : Nat :=
  cs.foldl (fun m c => max m c.2) 0

/-- Go `r.db.ExecContext(ctx, query, args...)`. -/
def DB.ExecContext (db : DB) (query : String) (args : List Value) : DB × Option error :=
  match db.enter (.exec query args) with
  | (db, some e) => (db, some e)
  | (db, none) =>
    if query = insertQuery then
      match args with
      | [.str id, .str merchant, .str order, .float amount, .int method, .int status,
          .str ref, .str prov, .time created, .time updated] =>
        if db.uniqueOrderID && db.payments.any (fun r => r.OrderID == order) then
          (db, some (.new "pq: duplicate key value violates unique constraint"))
        else
          ({ db with payments := db.payments ++ [{
              ID := id, MerchantID := merchant, OrderID := order, Amount := amount,
              PaymentMethod := method, Status := status, ReferenceNumber := some ref,
              Provider := some prov, CreatedAt := created, UpdatedAt := updated }] }, none)
      | _ => (db, some (.new "pq: wrong number or type of parameters"))
    else (db, some (.new "pq: syntax error"))

/-- The zero value of `paymentModel`, the content of `var p paymentModel` before a scan.
(The zero `time.Time` is written as instant 0; no result ever carries it.) -/
def paymentModel.zero : paymentModel :=
  { ID := "", MerchantID := "", OrderID := "", Amount := .fin false 0 0, PaymentMethod := 0,
    Status := 0, ReferenceNumber := none, Provider := none, CreatedAt := ⟨0⟩, UpdatedAt := ⟨0⟩ }

/-- Go `r.db.GetContext(ctx, &p, query, args...)` with a `paymentModel` target: the
first row of the result is scanned into the target; `sql.ErrNoRows` when there is none.
A failed call leaves the target at its zero value. -/
def DB.GetContext (db : DB) (query : String) (args : List Value) :
    DB × paymentModel × Option error :=
  match db.enter (.get query args) with
  | (db, some e) => (db, paymentModel.zero, some e)
  | (db, none) =>
    if query = getQuery then
      match args with
      | [.str id] =>
        match db.payments.find? fun r => r.ID == id with
        | some r => (db, r, none)
        | none => (db, paymentModel.zero, some .sqlErrNoRows)
      | _ => (db, paymentModel.zero, some (.new "pq: wrong number or type of parameters"))
    else if query = getByOrderIDQuery then
      match args with
      | [.str orderID] =>
        match db.payments.find? fun r => r.OrderID == orderID with
        | some r => (db, r, none)
        | none => (db, paymentModel.zero, some .sqlErrNoRows)
      | _ => (db, paymentModel.zero, some (.new "pq: wrong number or type of parameters"))
    else (db, paymentModel.zero, some (.new "pq: syntax error"))

/-- The conditions of a statement `SELECT count(*) FROM payments WHERE 1=1 ...`; `none`
when the text is not of that form (in particular when anything follows the
conditions). -/
def parseCount (query : String) : Option (List (Column × Nat)) :=
  match dropLit countQueryBase.toList query.toList with
  | none => none
  | some rest =>
    match parseFilters rest.length rest with
    | (cs, []) => some cs
    | _ => none

/-- The conditions and the placeholders of `LIMIT` and `OFFSET` of a statement
`SELECT ... FROM payments WHERE 1=1 ... LIMIT $a OFFSET $b`; `none` when the text is not
of that form. -/
def parsePage (query : String) : Option (List (Column × Nat) × Nat × Nat) :=
  match dropLit listQueryBase.toList query.toList with
  | none => none
  | some rest =>
    match parseLimitOffset (parseFilters rest.length rest).2 with
    | none => none
    | some (a, b) => some ((parseFilters rest.length rest).1, a, b)

/-- The result of a `SELECT count(*) FROM payments WHERE 1=1 ...` statement on a table. -/
def countRows (rows : List paymentModel) (query : String) (args : List Value) :
    Except error Int :=
  match parseCount query with
  | none => .error (.new "pq: syntax error")
  | some cs =>
    if maxPlaceholder cs = args.length then
      match wherePred args cs with
      | some p => .ok ((rows.filter p).length : Int)
      | none => .error (.new "pq: wrong type of parameter")
    else .error (.new "pq: wrong number of parameters")

/-- Go `r.db.GetContext(ctx, &total, countQuery, args...)` with an `int32` target, which
starts at zero and is left so by a failed call. A count beyond `int32` fails to scan. -/
def DB.GetContextInt32 (db : DB) (query : String) (args : List Value) :
    DB × Int × Option error :=
  match db.enter (.get query args) with
  | (db, some e) => (db, 0, some e)
  | (db, none) =>
    match countRows db.payments query args with
    | .error e => (db, 0, some e)
    | .ok n =>
      if n ≤ 2147483647 then (db, n, none)
      else (db, 0, some (.new "sql: Scan error: value out of range"))

/-- The bound argument of `LIMIT` or `OFFSET`: a non-negative integer. -/
def bindCount (args : List Value) (k : Nat) : Option Nat :=
  match bindArg args k with
  | some (.int n) => if 0 ≤ n then some n.toNat else none
  | _ => none

/-- The result of a `SELECT ... FROM payments WHERE 1=1 ... LIMIT $a OFFSET $b`
statement on a table: the rows that pass the conditions, without the first `offset`
ones, cut to `limit` rows. A negative `LIMIT` or `OFFSET` is an error. -/
def selectRows (rows : List paymentModel) (query : String) (args : List Value) :
    Except error (List paymentModel) :=
  match parsePage query with
  | none => .error (.new "pq: syntax error")
  | some (cs, a, b) =>
    if max (maxPlaceholder cs) (max a b) = args.length then
      match wherePred args cs, bindCount args a, bindCount args b with
      | some p, some limit, some offset => .ok (((rows.filter p).drop offset).take limit)
      | _, _, _ => .error (.new "pq: wrong type or negative value of parameter")
    else .error (.new "pq: wrong number of parameters")

/-- Go `r.db.SelectContext(ctx, &models, query, args...)`. -/
def DB.SelectContext (db : DB) (query : String) (args : List Value) :
    DB × List paymentModel × Option error :=
  match db.enter (.select query args) with
  | (db, some e) => (db, [], some e)
  | (db, none) =>
    match selectRows db.payments query args with
    | .error e => (db, [], some e)
    | .ok rows => (db, rows, none)

/-! ## `internal/payment/repository/postgres.go` -/

/-- Go `(m *paymentModel) toProto()`. -/
def paymentModel.toProto (m : paymentModel) : Payment :=
  let ref := match m.ReferenceNumber with
    | some s => s
    | none => ""
  let prov := match m.Provider with
    | some s => s
    | none => ""
  { Id := m.ID
    MerchantId := m.MerchantID
    OrderId := m.OrderID
    Amount := m.Amount
    PaymentMethod := m.PaymentMethod
    Status := m.Status
    ReferenceNumber := ref
    Provider := prov
    CreatedAt := some (timestamppb.New m.CreatedAt)
    UpdatedAt := some (timestamppb.New m.UpdatedAt) }

/-- Go `(r *postgresRepo) Create(ctx, p)`. `now` is the value of `time.Now()`. The
payment is passed by pointer and its two timestamps are set before the insert, so the
payment as the caller sees it afterwards is returned next to the error. -/
def postgresRepo.Create (db : DB) (now : Time) (p : Payment) : DB × Payment × Option error :=
  let query := insertQuery
  let p := { p with CreatedAt := some (timestamppb.New now) }
  let p := { p with UpdatedAt := some (timestamppb.New now) }
  match db.ExecContext query [.str p.Id, .str p.MerchantId, .str p.OrderId, .float p.Amount,
      .int p.PaymentMethod, .int p.Status, .str p.ReferenceNumber, .str p.Provider,
      .time now, .time now] with
  | (db, err) => (db, p, err)

/-- Go `(r *postgresRepo) Get(ctx, id)`. -/
def postgresRepo.Get (db : DB) (id : String) : DB × Option Payment × Option error :=
  let query := getQuery
  match db.GetContext query [.str id] with
  | (db, _, some err) =>
    if err = .sqlErrNoRows then (db, none, none)
    else (db, none, some err)
  | (db, p, none) => (db, some p.toProto, none)

/-- Go `(r *postgresRepo) GetByOrderID(ctx, orderID)`. -/
def postgresRepo.GetByOrderID (db : DB) (orderID : String) :
    DB × Option Payment × Option error :=
  let query := getByOrderIDQuery
  match db.GetContext query [.str orderID] with
  | (db, _, some err) =>
    if err = .sqlErrNoRows then (db, none, none)
    else (db, none, some err)
  | (db, p, none) => (db, some p.toProto, none)

/-- The locals `query`, `countQuery`, `args` and `argID` of `postgresRepo.List`. -/
structure listLocals where
  query : String
  countQuery : String
  args : List Value
  argID : Nat
  deriving DecidableEq, Repr

/-- Go `fmt.Sprintf` of a format that ends in `$%d`. -/
def sprintfArg (text : String) (argID : Nat) : String := text ++ toString argID

/-- The locals of `postgresRepo.List` after the block `// Filters`. -/
def listFilters (req : ListPaymentsRequest) : listLocals :=
  let l : listLocals :=
    { query := listQueryBase, countQuery := countQueryBase, args := [], argID := 1 }
  let l : listLocals :=
    if req.OrderId ≠ "" then
      let filter := sprintfArg " AND order_id = $" l.argID
      { query := l.query ++ filter, countQuery := l.countQuery ++ filter,
        args := l.args ++ [.str req.OrderId], argID := l.argID + 1 }
    else l
  let l : listLocals :=
    if req.PaymentMethod ≠ PaymentMethod_PAYMENT_METHOD_UNSPECIFIED then
      let filter := sprintfArg " AND payment_method = $" l.argID
      { query := l.query ++ filter, countQuery := l.countQuery ++ filter,
        args := l.args ++ [.int req.PaymentMethod], argID := l.argID + 1 }
    else l
  let l : listLocals :=
    if req.Status ≠ PaymentStatus_PAYMENT_STATUS_UNSPECIFIED then
      let filter := sprintfArg " AND status = $" l.argID
      { query := l.query ++ filter, countQuery := l.countQuery ++ filter,
        args := l.args ++ [.int req.Status], argID := l.argID + 1 }
    else l
  l

/-- The `offset` of `postgresRepo.List`: `(req.Page - 1) * req.PageSize` in `int32`
arithmetic. -/
def listOffset (req : ListPaymentsRequest) : Int :=
  wrapInt32 (wrapInt32 (req.Page - 1) * req.PageSize)

/-- The locals of `postgresRepo.List` after the block `// Pagination`, from the locals
`l` before it. -/
def listPagination (l : listLocals) (req : ListPaymentsRequest) : listLocals :=
  let query := l.query ++ (sprintfArg " LIMIT $" l.argID ++ sprintfArg " OFFSET $" (l.argID + 1))
  let offset := listOffset req
  { l with query := query, args := l.args ++ [.int req.PageSize, .int offset] }

/-- Go `(r *postgresRepo) List(ctx, req)`. -/
def postgresRepo.List (db : DB) (req : ListPaymentsRequest) :
    DB × List Payment × Int × Option error :=
  let l := listFilters req
  match db.GetContextInt32 l.countQuery l.args with
  | (db, _, some err) => (db, [], 0, some err)
  | (db, total, none) =>
    let l := listPagination l req
    match db.SelectContext l.query l.args with
    | (db, _, some err) => (db, [], 0, some err)
    | (db, models, none) => (db, models.map paymentModel.toProto, total, none)

/-! ## `internal/payment/usecase/usecase.go`

`u.repo` is the `postgresRepo` that `main` passes to `NewPaymentUseCase`. -/

/-- Go `(u *paymentUseCase) Create(ctx, merchantID, req)`. `newID` is the value of
`uuid.New()` and `now` the value of `time.Now()` inside `repo.Create`. -/
def paymentUseCase.Create (db : DB) (newID : UUID) (now : Time) (merchantID : String)
    (req : CreatePaymentRequest) : DB × Option Payment × Option error :=
  if req.OrderId = "" then
    (db, none, some (errors.New "order_id is required"))
  else if req.Amount.leZero then
    (db, none, some (errors.New "amount must be greater than 0"))
  else if merchantID = "" then
    (db, none, some (errors.New "merchant_id is required"))
  else
    match postgresRepo.GetByOrderID db req.OrderId with
    | (db, existing, err) =>
      if err = none ∧ existing ≠ none then
        (db, none, some (.new ("payment already exists for order_id: " ++ req.OrderId)))
      else
        let p : Payment :=
          { Id := newID.String
            MerchantId := merchantID
            OrderId := req.OrderId
            Amount := req.Amount
            PaymentMethod := req.PaymentMethod
            Status := PaymentStatus_PAYMENT_STATUS_SUCCESS
            ReferenceNumber := req.ReferenceNumber
            Provider := req.Provider
            CreatedAt := none
            UpdatedAt := none }
        match postgresRepo.Create db now p with
        | (db, _, some err) => (db, none, some err)
        | (db, p, none) => (db, some p, none)

/-- Go `(u *paymentUseCase) Get(ctx, req)`. -/
def paymentUseCase.Get (db : DB) (req : GetPaymentRequest) :
    DB × Option Payment × Option error :=
  if req.Id ≠ "" then postgresRepo.Get db req.Id
  else if req.OrderId ≠ "" then postgresRepo.GetByOrderID db req.OrderId
  else (db, none, some (errors.New "must provide id or order_id"))

/-- Go `(u *paymentUseCase) List(ctx, req)`. -/
def paymentUseCase.List (db : DB) (req : ListPaymentsRequest) :
    DB × Option ListPaymentsResponse × Option error :=
  match postgresRepo.List db req with
  | (db, _, _, some err) => (db, none, some err)
  | (db, list, total, none) =>
    (db, some { Payments := list, Total := total, Page := req.Page, PageSize := req.PageSize },
      none)

/-! ## `internal/payment/handler/handler.go` -/

/-- The gRPC status codes (`google.golang.org/grpc/codes`). -/
inductive codes where
  | OK
  | Canceled
  | Unknown
  | InvalidArgument
  | DeadlineExceeded
  | NotFound
  | AlreadyExists
  | PermissionDenied
  | ResourceExhausted
  | FailedPrecondition
  | Aborted
  | OutOfRange
  | Unimplemented
  | Internal
  | Unavailable
  | DataLoss
  | Unauthenticated
  deriving DecidableEq, Repr

/-- The error built by `status.Error(code, msg)`. -/
structure Status where
  code : codes
  message : String
  deriving DecidableEq, Repr

/-- The part of the request context the handler reads: the incoming gRPC metadata, when
there is any, as the list of its keys with their values. -/
structure Context where
  incomingMD : Option (List (String × List String))
  deriving DecidableEq, Repr

/-- Go `getMerchantID(ctx)`. -/
def getMerchantID (ctx : Context) : String :=
  match ctx.incomingMD with
  | none => ""
  | some md =>
    match md.lookup "x-merchant-id" with
    | some (v :: _) => v
    | _ => ""

/-- Go `(h *PaymentHandler) CreatePayment(ctx, req)`. -/
def PaymentHandler.CreatePayment (db : DB) (newID : UUID) (now : Time) (ctx : Context)
    (req : CreatePaymentRequest) : DB × Option CreatePaymentResponse × Option Status :=
  let merchantID := getMerchantID ctx
  if merchantID = "" then
    (db, none, some { code := .Unauthenticated, message := "missing merchant_id" })
  else
    match paymentUseCase.Create db newID now merchantID req with
    | (db, _, some err) => (db, none, some { code := .Internal, message := err.Error })
    | (db, payment, none) => (db, some { Payment := payment }, none)

/-- Go `(h *PaymentHandler) GetPayment(ctx, req)`. -/
def PaymentHandler.GetPayment (db : DB) (req : GetPaymentRequest) :
    DB × Option GetPaymentResponse × Option Status :=
  match paymentUseCase.Get db req with
  | (db, _, some err) => (db, none, some { code := .NotFound, message := err.Error })
  | (db, payment, none) => (db, some { Payment := payment }, none)

/-- Go `(h *PaymentHandler) ListPayments(ctx, req)`. -/
def PaymentHandler.ListPayments (db : DB) (req : ListPaymentsRequest) :
    DB × Option ListPaymentsResponse × Option Status :=
  match paymentUseCase.List db req with
  | (db, _, some err) => (db, none, some { code := .Internal, message := err.Error })
  | (db, resp, none) => (db, resp, none)

/-! ## Vocabulary of the statements below -/

/-- The literal `lit` occurs somewhere in `s`. -/
def containsLit (lit : List Char) : List Char → Bool
  | [] => (dropLit lit []).isSome
  | c :: cs => (dropLit lit (c :: cs)).isSome || containsLit lit cs

/-- A filter of a `List` request is active: `order_id` when it is not empty,
`payment_method` and `status` when they are not the "unspecified" sentinel. -/
def filterActive (req : ListPaymentsRequest) : Column → Bool
  | .order_id => req.OrderId != ""
  | .payment_method => req.PaymentMethod != PaymentMethod_PAYMENT_METHOD_UNSPECIFIED
  | .status => req.Status != PaymentStatus_PAYMENT_STATUS_UNSPECIFIED

/-- The value a `List` request carries for a filter. -/
def filterValue (req : ListPaymentsRequest) : Column → Value
  | .order_id => .str req.OrderId
  | .payment_method => .int req.PaymentMethod
  | .status => .int req.Status

/-- The value a stored row has in a column. -/
def columnValue (r : paymentModel) : Column → Value
  | .order_id => .str r.OrderID
  | .payment_method => .int r.PaymentMethod
  | .status => .int r.Status

/-- A stored row passes every active filter of the request. -/
def matchesFilters (req : ListPaymentsRequest) (r : paymentModel) : Bool :=
  [Column.order_id, Column.payment_method, Column.status].all fun col =>
    !filterActive req col || columnValue r col == filterValue req col

/-- The active filters of a request, in the order `List` visits them. -/
def activeColumns (req : ListPaymentsRequest) : List Column :=
  [Column.order_id, Column.payment_method, Column.status].filter (filterActive req)

/-- Columns paired with consecutive placeholder numbers, from `k` on. -/
def numbered : Nat → List Column → List (Column × Nat)
  | _, [] => []
  | k, col :: cols => (col, k) :: numbered (k + 1) cols

/-- The text ` AND <col> = $k ...` of numbered conditions. -/
def renderFilters : List (Column × Nat) → String
  | [] => ""
  | (col, k) :: cs => " AND " ++ col.name ++ " = $" ++ toString k ++ renderFilters cs

/-- The eight lists of columns that `activeColumns` can yield. -/
def columnSelections : List (List Column) :=
  [[], [.order_id], [.payment_method], [.status], [.order_id, .payment_method],
    [.order_id, .status], [.payment_method, .status],
    [.order_id, .payment_method, .status]]

/-- The row that `postgresRepo.Create` binds for a payment. -/
def insertedRow (now : Time) (p : Payment) : paymentModel :=
  { ID := p.Id, MerchantID := p.MerchantId, OrderID := p.OrderId, Amount := p.Amount,
    PaymentMethod := p.PaymentMethod, Status := p.Status,
    ReferenceNumber := some p.ReferenceNumber, Provider := some p.Provider,
    CreatedAt := now, UpdatedAt := now }

/-- The payment that `paymentUseCase.Create` constructs before the insert. -/
def newPayment (newID : UUID) (merchantID : String) (req : CreatePaymentRequest) : Payment :=
  { Id := newID.String, MerchantId := merchantID, OrderId := req.OrderId, Amount := req.Amount,
    PaymentMethod := req.PaymentMethod, Status := PaymentStatus_PAYMENT_STATUS_SUCCESS,
    ReferenceNumber := req.ReferenceNumber, Provider := req.Provider,
    CreatedAt := none, UpdatedAt := none }

/-- One call of `paymentUseCase.Create` with the values it reads from the environment. -/
structure CreateCall where
  newID : UUID
  now : Time
  merchantID : String
  req : CreatePaymentRequest

/-- The store after a sequence of `paymentUseCase.Create` calls, one after the other. -/
def runCreates (db : DB) : List CreateCall → DB
  | [] => db
  | c :: cs => runCreates (paymentUseCase.Create db c.newID c.now c.merchantID c.req).1 cs

/-- No two stored payments have the same `order_id`. -/
def onePaymentPerOrder (db : DB) : Prop :=
  (db.payments.map fun r => r.OrderID).Nodup

instance (db : DB) : Decidable (onePaymentPerOrder db) := by
  unfold onePaymentPerOrder; infer_instance

/-- The store cannot come to hold two payments of one order: the table declares
`UNIQUE (order_id)`, or no coming driver call fails. -/
def guarded (db : DB) : Prop :=
  db.uniqueOrderID = true ∨ ∀ o ∈ db.outcomes, o = none

/-! ## Sample values for the closed statements -/

/-- A generated identifier. -/
def sampleUUID : UUID := ⟨fun _ => 0⟩

/-- Another generated identifier. -/
def sampleUUID2 : UUID := ⟨fun _ => 1⟩

/-- The request `Create(order_id = "ORD-1", amount = 25.50, payment_method = 1)`. -/
def sampleRequest : CreatePaymentRequest :=
  { OrderId := "ORD-1", Amount := .fin false 51 (-1), PaymentMethod := 1,
    ReferenceNumber := "", Provider := "" }

/-- The request `Create(order_id = "ORD-1", amount = 10.00, payment_method = 2)` with a
reference number and a provider. -/
def sampleRequest2 : CreatePaymentRequest :=
  { OrderId := "ORD-1", Amount := .fin false 10 0, PaymentMethod := 2,
    ReferenceNumber := "ref", Provider := "bank" }

/-- The empty store, on a table without `UNIQUE (order_id)`, with no failure ahead. -/
def emptyDB : DB := { payments := [], uniqueOrderID := false, outcomes := [], calls := [] }

/-- The store after `sampleRequest` was created in the empty store. -/
def sampleDB : DB := (paymentUseCase.Create emptyDB sampleUUID ⟨5⟩ "m-1" sampleRequest).1

/-- The empty store whose next driver call fails. -/
def failingDB : DB :=
  { payments := [], uniqueOrderID := false,
    outcomes := [some (.new "driver: bad connection")], calls := [] }

/-- The incoming context of merchant `m-1`. -/
def sampleContext : Context := { incomingMD := some [("x-merchant-id", ["m-1"])] }

set_option maxRecDepth 100000

/-! ## Lemmas on the store -/

theorem getByOrderIDQuery_ne_getQuery : getByOrderIDQuery ≠ getQuery := by decide

theorem leZero_eq (x : Float64) : x.leZero = (x.isZero || x.isNegative) := by
  cases x with
  | nan => rfl
  | inf neg => cases neg <;> rfl
  | fin neg mant exp =>
    cases neg <;> simp [Float64.leZero, Float64.isZero, Float64.isNegative]
    by_cases h : mant = 0 <;> simp [h]

theorem leZero_of_gtZero (x : Float64) (h : x.gtZero = true) : x.leZero = false := by
  cases x with
  | nan => rfl
  | inf neg => cases neg <;> simp_all [Float64.leZero, Float64.gtZero]
  | fin neg mant exp => cases neg <;> simp_all [Float64.leZero, Float64.gtZero]

/-- The lookup by order id makes one driver call and leaves the table alone. -/
theorem getByOrderID_db (db : DB) (orderID : String) :
    (postgresRepo.GetByOrderID db orderID).1
      = { db with outcomes := db.outcomes.tail,
                  calls := db.calls ++ [.get getByOrderIDQuery [.str orderID]] } := by
  simp only [postgresRepo.GetByOrderID, DB.GetContext, DB.enter,
    if_neg getByOrderIDQuery_ne_getQuery, if_true]
  cases hn : db.next with
  | some e => by_cases he : e = .sqlErrNoRows <;> simp [he]
  | none => cases hf : db.payments.find? fun r => r.OrderID == orderID <;> simp [hf]

/-- The lookup by order id when the driver call does not fail. -/
theorem getByOrderID_ok (db : DB) (orderID : String) (h : db.next = none) :
    (postgresRepo.GetByOrderID db orderID).2
      = ((db.payments.find? fun r => r.OrderID == orderID).map paymentModel.toProto, none) := by
  simp only [postgresRepo.GetByOrderID, DB.GetContext, DB.enter, h,
    if_neg getByOrderIDQuery_ne_getQuery, if_true]
  cases hf : db.payments.find? fun r => r.OrderID == orderID <;> simp

/-- The lookup by order id when the driver call fails. -/
theorem getByOrderID_fail (db : DB) (orderID : String) (e : error) (h : db.next = some e) :
    (postgresRepo.GetByOrderID db orderID).2
      = (none, if e = .sqlErrNoRows then none else some e) := by
  simp only [postgresRepo.GetByOrderID, DB.GetContext, DB.enter, h]
  by_cases he : e = .sqlErrNoRows <;> simp [he]

/-- The lookup by id makes one driver call and leaves the table alone. -/
theorem get_db (db : DB) (id : String) :
    (postgresRepo.Get db id).1
      = { db with outcomes := db.outcomes.tail,
                  calls := db.calls ++ [.get getQuery [.str id]] } := by
  simp only [postgresRepo.Get, DB.GetContext, DB.enter, if_true]
  cases hn : db.next with
  | some e => by_cases he : e = .sqlErrNoRows <;> simp [he]
  | none => cases hf : db.payments.find? fun r => r.ID == id <;> simp [hf]

/-- The lookup by id when the driver call does not fail. -/
theorem get_ok (db : DB) (id : String) (h : db.next = none) :
    (postgresRepo.Get db id).2
      = ((db.payments.find? fun r => r.ID == id).map paymentModel.toProto, none) := by
  simp only [postgresRepo.Get, DB.GetContext, DB.enter, h, if_true]
  cases hf : db.payments.find? fun r => r.ID == id <;> simp

theorem find_orderID_isSome (rows : List paymentModel) (orderID : String)
    (h : ∃ r ∈ rows, r.OrderID = orderID) :
    ∃ r, rows.find? (fun r => r.OrderID == orderID) = some r := by
  obtain ⟨r, hr, hX⟩ := h
  cases hf : rows.find? (fun r => r.OrderID == orderID) with
  | some r' => exact ⟨r', rfl⟩
  | none =>
    rw [List.find?_eq_none] at hf
    exact absurd (by simpa using hX) (hf r hr)

theorem find_orderID_none (rows : List paymentModel) (orderID : String)
    (h : rows.find? (fun r => r.OrderID == orderID) = none) :
    orderID ∉ rows.map fun r => r.OrderID := by
  rw [List.find?_eq_none] at h
  intro hmem
  obtain ⟨r, hr, hX⟩ := List.mem_map.mp hmem
  exact h r hr (by simpa using hX)

theorem find_appended (rows : List paymentModel) (row : paymentModel)
    (hfresh : ∀ r ∈ rows, r.ID ≠ row.ID) :
    (rows ++ [row]).find? (fun r => r.ID == row.ID) = some row := by
  induction rows with
  | nil => simp
  | cons a rows ih =>
    have ha : a.ID ≠ row.ID := hfresh a (List.mem_cons_self _ _)
    have := ih (fun r hr => hfresh r (List.mem_cons_of_mem _ hr))
    simp [List.find?_cons, ha, this]

/-- A generated identifier is never the empty string. -/
theorem uuid_string_ne_empty (u : UUID) : u.String ≠ "" := by
  intro h
  have h2 : u.String.data.length = 0 := by rw [h]; rfl
  simp only [UUID.String, UUID.hex, List.length_append, List.length_cons, List.length_nil] at h2
  omega

/-- What `postgresRepo.Create` does to the store and to the payment, by the outcome of
its driver call and the table's constraint. -/
theorem repoCreate_eq (db : DB) (now : Time) (p : Payment) :
    postgresRepo.Create db now p =
      (if db.next = none ∧
            ¬(db.uniqueOrderID = true ∧ p.OrderId ∈ db.payments.map fun r => r.OrderID) then
          { db with payments := db.payments ++ [insertedRow now p],
                    outcomes := db.outcomes.tail,
                    calls := db.calls ++ [.exec insertQuery [.str p.Id, .str p.MerchantId,
                      .str p.OrderId, .float p.Amount, .int p.PaymentMethod, .int p.Status,
                      .str p.ReferenceNumber, .str p.Provider, .time now, .time now]] }
        else
          { db with outcomes := db.outcomes.tail,
                    calls := db.calls ++ [.exec insertQuery [.str p.Id, .str p.MerchantId,
                      .str p.OrderId, .float p.Amount, .int p.PaymentMethod, .int p.Status,
                      .str p.ReferenceNumber, .str p.Provider, .time now, .time now]] },
        { p with CreatedAt := some (timestamppb.New now),
                 UpdatedAt := some (timestamppb.New now) },
        if db.next = none then
          if db.uniqueOrderID = true ∧ p.OrderId ∈ db.payments.map fun r => r.OrderID then
            some (.new "pq: duplicate key value violates unique constraint")
          else none
        else db.next) := by
  simp only [postgresRepo.Create, DB.ExecContext, DB.enter, if_true]
  cases hn : db.next with
  | some e => simp
  | none =>
    by_cases hu : db.uniqueOrderID = true ∧ p.OrderId ∈ db.payments.map fun r => r.OrderID
    · have hany : (db.uniqueOrderID && db.payments.any fun r => r.OrderID == p.OrderId) = true := by
        obtain ⟨h1, h2⟩ := hu
        obtain ⟨r, hr, hX⟩ := List.mem_map.mp h2
        simp only [h1, Bool.true_and, List.any_eq_true]
        exact ⟨r, hr, by simpa using hX⟩
      have hnot : ¬(True ∧ ¬(db.uniqueOrderID = true ∧
          p.OrderId ∈ db.payments.map fun r => r.OrderID)) := fun h => h.2 hu
      simp only [hany, if_true, if_pos hu, if_neg hnot]
    · have hany : (db.uniqueOrderID && db.payments.any fun r => r.OrderID == p.OrderId) = false := by
        cases hb : db.uniqueOrderID with
        | false => simp
        | true =>
          simp only [Bool.true_and]
          cases ha : db.payments.any fun r => r.OrderID == p.OrderId with
          | false => rfl
          | true =>
            exfalso
            apply hu
            obtain ⟨r, hr, hX⟩ := List.any_eq_true.mp ha
            exact ⟨hb, List.mem_map.mpr ⟨r, hr, by simpa using hX⟩⟩
      have hyes : True ∧ ¬(db.uniqueOrderID = true ∧
          p.OrderId ∈ db.payments.map fun r => r.OrderID) := ⟨trivial, hu⟩
      simp only [hany, Bool.false_eq_true, if_false, if_true, if_neg hu, if_pos hyes, insertedRow]

/-- A successful insert stamps the payment and appends exactly the row bound for it. -/
theorem repoCreate_success (db db' : DB) (now : Time) (p p' : Payment)
    (h : postgresRepo.Create db now p = (db', p', none)) :
    p' = { p with CreatedAt := some (timestamppb.New now),
                  UpdatedAt := some (timestamppb.New now) }
    ∧ db'.payments = db.payments ++ [insertedRow now p] := by
  rw [repoCreate_eq] at h
  simp only [Prod.mk.injEq] at h
  obtain ⟨h1, h2, h3⟩ := h
  refine ⟨h2.symm, ?_⟩
  by_cases hins : db.next = none ∧ ¬(db.uniqueOrderID = true ∧
      p.OrderId ∈ db.payments.map fun r => r.OrderID)
  · rw [if_pos hins] at h1
    rw [← h1]
  · exfalso
    by_cases hn : db.next = none
    · have hu : db.uniqueOrderID = true ∧ p.OrderId ∈ db.payments.map fun r => r.OrderID := by
        by_contra hu
        exact hins ⟨hn, hu⟩
      rw [if_pos hn, if_pos hu] at h3
      exact absurd h3 (by simp)
    · rw [if_neg hn] at h3
      exact hn h3

/-- A successful `paymentUseCase.Create` returns the constructed payment with its
timestamps and has appended exactly the row bound for it. -/
theorem create_success (db db' : DB) (newID : UUID) (now : Time) (merchantID : String)
    (req : CreatePaymentRequest) (P : Payment)
    (h : paymentUseCase.Create db newID now merchantID req = (db', some P, none)) :
    P = { newPayment newID merchantID req with
            CreatedAt := some (timestamppb.New now), UpdatedAt := some (timestamppb.New now) }
    ∧ db'.payments = db.payments ++ [insertedRow now (newPayment newID merchantID req)] := by
  unfold paymentUseCase.Create at h
  split at h
  · simp at h
  split at h
  · simp at h
  split at h
  · simp at h
  have hdb := getByOrderID_db db req.OrderId
  rcases hg : postgresRepo.GetByOrderID db req.OrderId with ⟨db1, existing, err⟩
  rw [hg] at h hdb
  simp only at h hdb
  split at h
  · simp at h
  rcases hc : postgresRepo.Create db1 now (newPayment newID merchantID req) with ⟨db2, p2, e2⟩
  simp only [newPayment] at hc
  rw [hc] at h
  cases e2 with
  | some e => simp at h
  | none =>
    simp only [Prod.mk.injEq, Option.some.injEq, and_true] at h
    obtain ⟨h1, h2⟩ := h
    subst h1 h2
    obtain ⟨hp, hd⟩ := repoCreate_success db1 db2 now _ _ hc
    refine ⟨by rw [hp]; rfl, ?_⟩
    rw [hd, hdb]; rfl

/-! ## Creation -/

/-- `Create` on valid arguments when the lookup reports a payment of the order. -/
theorem create_of_reported (db : DB) (newID : UUID) (now : Time) (merchantID : String)
    (req : CreatePaymentRequest) (existing : Payment)
    (hreport : (postgresRepo.GetByOrderID db req.OrderId).2 = (some existing, none))
    (hmerchant : merchantID ≠ "") (horder : req.OrderId ≠ "")
    (hamount : req.Amount.leZero = false) :
    paymentUseCase.Create db newID now merchantID req =
      ({ db with outcomes := db.outcomes.tail,
                 calls := db.calls ++ [.get getByOrderIDQuery [.str req.OrderId]] },
        none, some (.new ("payment already exists for order_id: " ++ req.OrderId))) := by
  have hdb := getByOrderID_db db req.OrderId
  rcases hg : postgresRepo.GetByOrderID db req.OrderId with ⟨db1, ex, err⟩
  rw [hg] at hdb hreport
  simp only [Prod.mk.injEq] at hreport
  obtain ⟨h1, h2⟩ := hreport
  simp only at hdb
  subst h1 h2 hdb
  simp [paymentUseCase.Create, horder, hmerchant, hamount, hg]

/-- C1. When a payment with the request's order id is stored and the store's
`GetByOrderID` reports it, `Create` with a non-empty merchant id, that non-empty order id
and an amount above zero fails with "payment already exists for order_id: X", returns no
payment, leaves the table as it was and makes exactly one driver call, the lookup: no
insert. The other fields of the request are arbitrary. -/
theorem create_duplicate_rejected (db : DB) (newID : UUID) (now : Time) (merchantID : String)
    (req : CreatePaymentRequest) (existing : Payment)
    (hstored : ∃ r ∈ db.payments, r.OrderID = req.OrderId)
    (hreport : (postgresRepo.GetByOrderID db req.OrderId).2 = (some existing, none))
    (hmerchant : merchantID ≠ "") (horder : req.OrderId ≠ "")
    (hamount : req.Amount.gtZero = true) :
    paymentUseCase.Create db newID now merchantID req =
      ({ db with outcomes := db.outcomes.tail,
                 calls := db.calls ++ [.get getByOrderIDQuery [.str req.OrderId]] },
        none, some (.new ("payment already exists for order_id: " ++ req.OrderId))) := by
  have _ := hstored
  exact create_of_reported db newID now merchantID req existing hreport hmerchant horder
    (leZero_of_gtZero _ hamount)

/-- The hypotheses of `create_duplicate_rejected` hold for the second `Create` of the
same order, with another amount, method, reference number and provider. -/
theorem create_duplicate_rejected_witness :
    paymentUseCase.Create sampleDB sampleUUID2 ⟨6⟩ "m-1" sampleRequest2 =
      ({ sampleDB with outcomes := sampleDB.outcomes.tail,
                       calls := sampleDB.calls ++ [.get getByOrderIDQuery [.str "ORD-1"]] },
        none, some (.new "payment already exists for order_id: ORD-1")) :=
  create_duplicate_rejected sampleDB sampleUUID2 ⟨6⟩ "m-1" sampleRequest2
    { newPayment sampleUUID "m-1" sampleRequest with
      CreatedAt := some (timestamppb.New ⟨5⟩), UpdatedAt := some (timestamppb.New ⟨5⟩) }
    (by decide) (by decide) (by decide) (by decide) (by decide)

/-- C2. `Create` with an empty order id, an amount that is zero or negative, or an empty
merchant id returns no payment and an error that names a precondition the call violates,
and returns the store untouched: no driver call is logged, the table is unchanged. -/
theorem create_rejects_invalid (db : DB) (newID : UUID) (now : Time) (merchantID : String)
    (req : CreatePaymentRequest)
    (h : req.OrderId = "" ∨ req.Amount.isZero = true ∨ req.Amount.isNegative = true
      ∨ merchantID = "") :
    ∃ msg, paymentUseCase.Create db newID now merchantID req = (db, none, some (errors.New msg))
      ∧ ((msg = "order_id is required" ∧ req.OrderId = "")
        ∨ (msg = "amount must be greater than 0"
            ∧ (req.Amount.isZero = true ∨ req.Amount.isNegative = true))
        ∨ (msg = "merchant_id is required" ∧ merchantID = "")) := by
  by_cases h1 : req.OrderId = ""
  · exact ⟨_, by simp [paymentUseCase.Create, h1], Or.inl ⟨rfl, h1⟩⟩
  · by_cases h2 : req.Amount.leZero = true
    · refine ⟨_, by simp [paymentUseCase.Create, h1, h2], Or.inr (Or.inl ⟨rfl, ?_⟩)⟩
      simpa [leZero_eq] using h2
    · have h3 : merchantID = "" := by
        rcases h with h | h | h | h
        · exact absurd h h1
        · exact absurd (by simp [leZero_eq, h]) h2
        · exact absurd (by simp [leZero_eq, h]) h2
        · exact h
      exact ⟨_, by simp [paymentUseCase.Create, h1, h2, h3], Or.inr (Or.inr ⟨rfl, h3⟩)⟩

/-- The hypothesis of `create_rejects_invalid` holds for an amount of zero. -/
theorem create_rejects_invalid_witness :
    ∃ msg, paymentUseCase.Create sampleDB sampleUUID2 ⟨6⟩ "m-1"
        { sampleRequest with Amount := .fin false 0 0 } = (sampleDB, none, some (errors.New msg))
      ∧ ((msg = "order_id is required" ∧ sampleRequest.OrderId = "")
        ∨ (msg = "amount must be greater than 0"
            ∧ ((Float64.fin false 0 0).isZero = true ∨ (Float64.fin false 0 0).isNegative = true))
        ∨ (msg = "merchant_id is required" ∧ "m-1" = "")) :=
  create_rejects_invalid sampleDB sampleUUID2 ⟨6⟩ "m-1"
    { sampleRequest with Amount := .fin false 0 0 } (Or.inr (Or.inl rfl))

/-- C5. Round trip. When `Create` succeeds and returns `P`, the generated identifier
being new to the table, a `Get` by `P.Id` that follows at once and whose read does not
fail returns `P` itself; `P` carries the generated id, the merchant id and the request's
order id, amount, payment method, reference number and provider, the status `SUCCESS`,
and equal creation and update timestamps. (That the merchant id and order id are not
empty and the amount is above zero follows from the success of `Create`.) -/
theorem create_get_roundtrip (db db' : DB) (newID : UUID) (now : Time) (merchantID : String)
    (req : CreatePaymentRequest) (P : Payment)
    (hfresh : ∀ r ∈ db.payments, r.ID ≠ newID.String)
    (hcreate : paymentUseCase.Create db newID now merchantID req = (db', some P, none))
    (hread : db'.next = none) :
    (paymentUseCase.Get db' { Id := P.Id, OrderId := "" }).2 = (some P, none)
    ∧ P.Id = newID.String ∧ P.MerchantId = merchantID ∧ P.OrderId = req.OrderId
    ∧ P.Amount = req.Amount ∧ P.PaymentMethod = req.PaymentMethod
    ∧ P.ReferenceNumber = req.ReferenceNumber ∧ P.Provider = req.Provider
    ∧ P.Status = PaymentStatus_PAYMENT_STATUS_SUCCESS
    ∧ P.CreatedAt = some (timestamppb.New now) ∧ P.CreatedAt = P.UpdatedAt := by
  obtain ⟨hP, hrows⟩ := create_success db db' newID now merchantID req P hcreate
  subst hP
  refine ⟨?_, rfl, rfl, rfl, rfl, rfl, rfl, rfl, rfl, rfl, rfl⟩
  have hne : newID.String ≠ "" := uuid_string_ne_empty newID
  simp only [paymentUseCase.Get, newPayment, ne_eq, hne, not_false_eq_true, if_true]
  rw [get_ok db' _ hread, hrows]
  have := find_appended db.payments (insertedRow now (newPayment newID merchantID req)) hfresh
  simp only [insertedRow, newPayment] at this ⊢
  rw [this]
  rfl

/-- The hypotheses of `create_get_roundtrip` hold for the first `Create` in the empty
store. -/
theorem create_get_roundtrip_witness :
    (paymentUseCase.Get sampleDB
        { Id := "00000000-0000-0000-0000-000000000000", OrderId := "" }).2
      = (some { Id := "00000000-0000-0000-0000-000000000000", MerchantId := "m-1",
                OrderId := "ORD-1", Amount := .fin false 51 (-1), PaymentMethod := 1,
                Status := PaymentStatus_PAYMENT_STATUS_SUCCESS, ReferenceNumber := "",
                Provider := "", CreatedAt := some (timestamppb.New ⟨5⟩),
                UpdatedAt := some (timestamppb.New ⟨5⟩) }, none) :=
  (create_get_roundtrip emptyDB sampleDB sampleUUID ⟨5⟩ "m-1" sampleRequest
    { Id := "00000000-0000-0000-0000-000000000000", MerchantId := "m-1",
      OrderId := "ORD-1", Amount := .fin false 51 (-1), PaymentMethod := 1,
      Status := PaymentStatus_PAYMENT_STATUS_SUCCESS, ReferenceNumber := "",
      Provider := "", CreatedAt := some (timestamppb.New ⟨5⟩),
      UpdatedAt := some (timestamppb.New ⟨5⟩) }
    (by decide) (by decide) (by decide)).1

/-! ## Failures of the store during creation -/

/-- `Create` on valid arguments when the lookup fails or finds nothing: the payment is
constructed and inserted, and the result is that of the insert. A failed lookup is not
told apart from a lookup that found nothing. -/
theorem create_of_not_reported (db : DB) (newID : UUID) (now : Time) (merchantID : String)
    (req : CreatePaymentRequest)
    (hlookup : (postgresRepo.GetByOrderID db req.OrderId).2.1 = none
      ∨ (postgresRepo.GetByOrderID db req.OrderId).2.2 ≠ none)
    (hmerchant : merchantID ≠ "") (horder : req.OrderId ≠ "")
    (hamount : req.Amount.leZero = false) :
    paymentUseCase.Create db newID now merchantID req =
      ((postgresRepo.Create (postgresRepo.GetByOrderID db req.OrderId).1 now
          (newPayment newID merchantID req)).1,
        if (postgresRepo.Create (postgresRepo.GetByOrderID db req.OrderId).1 now
            (newPayment newID merchantID req)).2.2 = none then
          some (postgresRepo.Create (postgresRepo.GetByOrderID db req.OrderId).1 now
            (newPayment newID merchantID req)).2.1
        else none,
        (postgresRepo.Create (postgresRepo.GetByOrderID db req.OrderId).1 now
          (newPayment newID merchantID req)).2.2) := by
  rcases hg : postgresRepo.GetByOrderID db req.OrderId with ⟨db1, ex, err⟩
  rw [hg] at hlookup
  simp only at hlookup
  have hcond : ¬(err = none ∧ ex ≠ none) := by
    rintro ⟨h1, h2⟩
    rcases hlookup with h | h
    · exact h2 h
    · exact h h1
  simp only [paymentUseCase.Create, horder, hmerchant, hamount, hg, if_false, hcond]
  rcases hc : postgresRepo.Create db1 now (newPayment newID merchantID req) with ⟨db2, p2, e2⟩
  simp only [newPayment] at hc
  rw [hc]
  cases e2 <;> simp

/-- An error of the insert is returned as it is, with no payment, and nothing follows
the failed insert. -/
theorem create_insert_failure_returned (db : DB) (newID : UUID) (now : Time)
    (merchantID : String) (req : CreatePaymentRequest) (e : error)
    (hlookup : db.next = none)
    (habsent : db.payments.find? (fun r => r.OrderID == req.OrderId) = none)
    (hinsert : db.outcomes.tail.head?.join = some e)
    (hmerchant : merchantID ≠ "") (horder : req.OrderId ≠ "")
    (hamount : req.Amount.leZero = false) :
    (paymentUseCase.Create db newID now merchantID req).2 = (none, some e)
    ∧ (paymentUseCase.Create db newID now merchantID req).1.payments = db.payments
    ∧ (paymentUseCase.Create db newID now merchantID req).1.calls.length
        = db.calls.length + 2 := by
  have h2 := getByOrderID_ok db req.OrderId hlookup
  rw [habsent] at h2
  have hc := create_of_not_reported db newID now merchantID req
    (Or.inl (by rw [h2]; rfl)) hmerchant horder hamount
  rw [hc, getByOrderID_db, repoCreate_eq]
  have hn : DB.next { db with
      outcomes := db.outcomes.tail
      calls := db.calls ++ [.get getByOrderIDQuery [.str req.OrderId]] } = some e := hinsert
  simp [hn]

/-- C6, the path on which the code departs from the claim. The existence lookup fails
with an I/O error; `Create` does not return that error: it goes on to the insert and
returns the new payment with no error. -/
theorem create_masks_lookup_failure :
    (postgresRepo.GetByOrderID failingDB "ORD-1").2
      = (none, some (.new "driver: bad connection"))
    ∧ (paymentUseCase.Create failingDB sampleUUID ⟨5⟩ "m-1" sampleRequest).2
      = (some { newPayment sampleUUID "m-1" sampleRequest with
                CreatedAt := some (timestamppb.New ⟨5⟩),
                UpdatedAt := some (timestamppb.New ⟨5⟩) }, none)
    ∧ (paymentUseCase.Create failingDB sampleUUID ⟨5⟩ "m-1" sampleRequest).1.payments
      = [insertedRow ⟨5⟩ (newPayment sampleUUID "m-1" sampleRequest)]
    ∧ ((paymentUseCase.Create failingDB sampleUUID ⟨5⟩ "m-1" sampleRequest).1.calls.map
        fun c => match c with
          | .exec _ _ => "exec"
          | .get _ _ => "get"
          | .select _ _ => "select") = ["get", "exec"] := by
  decide

/-! ## One payment per order -/

theorem next_of_outcomes_none (db : DB) (h : ∀ o ∈ db.outcomes, o = none) : db.next = none := by
  unfold DB.next
  cases ho : db.outcomes with
  | nil => rfl
  | cons a rest =>
    have := h a (by rw [ho]; exact List.mem_cons_self _ _)
    subst this
    rfl

/-- One `Create` keeps the invariant in a guarded store, and leaves the store guarded. -/
theorem create_keeps_onePaymentPerOrder (db : DB) (newID : UUID) (now : Time)
    (merchantID : String) (req : CreatePaymentRequest)
    (hguard : guarded db) (hinv : onePaymentPerOrder db) :
    guarded (paymentUseCase.Create db newID now merchantID req).1
    ∧ onePaymentPerOrder (paymentUseCase.Create db newID now merchantID req).1 := by
  by_cases horder : req.OrderId = ""
  · simp [paymentUseCase.Create, horder, hguard, hinv]
  by_cases hamount : req.Amount.leZero = true
  · simp [paymentUseCase.Create, horder, hamount, hguard, hinv]
  by_cases hmerchant : merchantID = ""
  · simp [paymentUseCase.Create, horder, hamount, hmerchant, hguard, hinv]
  have hamount2 : req.Amount.leZero = false := by simpa using hamount
  have hguard1 : guarded { db with
      outcomes := db.outcomes.tail
      calls := db.calls ++ [.get getByOrderIDQuery [.str req.OrderId]] } := by
    rcases hguard with h | h
    · exact Or.inl h
    · exact Or.inr fun o ho => h o (List.mem_of_mem_tail ho)
  by_cases hrep : ∃ existing, (postgresRepo.GetByOrderID db req.OrderId).2 = (some existing, none)
  · obtain ⟨existing, hrep⟩ := hrep
    rw [create_of_reported db newID now merchantID req existing hrep hmerchant horder hamount2]
    exact ⟨hguard1, hinv⟩
  · have hlookup : (postgresRepo.GetByOrderID db req.OrderId).2.1 = none
        ∨ (postgresRepo.GetByOrderID db req.OrderId).2.2 ≠ none := by
      rcases hg : (postgresRepo.GetByOrderID db req.OrderId).2 with ⟨ex, err⟩
      cases ex with
      | none => exact Or.inl rfl
      | some p =>
        cases err with
        | none => exact absurd ⟨p, hg⟩ hrep
        | some e => exact Or.inr (by simp)
    rw [create_of_not_reported db newID now merchantID req hlookup hmerchant horder hamount2,
      getByOrderID_db, repoCreate_eq]
    simp only [newPayment]
    by_cases hins : (DB.next { db with
          outcomes := db.outcomes.tail
          calls := db.calls ++ [.get getByOrderIDQuery [.str req.OrderId]] } = none
        ∧ ¬(db.uniqueOrderID = true ∧ req.OrderId ∈ db.payments.map fun r => r.OrderID))
    · have hnotin : req.OrderId ∉ db.payments.map fun r => r.OrderID := by
        rcases hguard with h | h
        · exact fun hm => hins.2 ⟨h, hm⟩
        · have hn := next_of_outcomes_none db h
          have h2 := getByOrderID_ok db req.OrderId hn
          cases hf : db.payments.find? (fun r => r.OrderID == req.OrderId) with
          | none => exact find_orderID_none _ _ hf
          | some r =>
            rw [hf] at h2
            exact absurd ⟨_, h2⟩ hrep
      rw [if_pos hins]
      have hguard2 : guarded { db with
          payments := db.payments ++ [insertedRow now (newPayment newID merchantID req)]
          outcomes := db.outcomes.tail.tail
          calls := db.calls ++ [.get getByOrderIDQuery [.str req.OrderId]] ++
            [.exec insertQuery [.str newID.String, .str merchantID, .str req.OrderId,
              .float req.Amount, .int req.PaymentMethod,
              .int PaymentStatus_PAYMENT_STATUS_SUCCESS, .str req.ReferenceNumber,
              .str req.Provider, .time now, .time now]] } := by
        rcases hguard with h | h
        · exact Or.inl h
        · exact Or.inr fun o ho => h o (List.mem_of_mem_tail (List.mem_of_mem_tail ho))
      have hinv2 : ((db.payments ++ [insertedRow now (newPayment newID merchantID req)]).map
          fun r => r.OrderID).Nodup := by
        rw [List.map_append, List.nodup_append]
        refine ⟨hinv, by simp, ?_⟩
        intro a ha hb
        simp only [List.map_cons, List.map_nil, List.mem_singleton, insertedRow, newPayment] at hb
        subst hb
        exact hnotin ha
      exact ⟨hguard2, hinv2⟩
    · rw [if_neg hins]
      have hguard2 : guarded { db with
          outcomes := db.outcomes.tail.tail
          calls := db.calls ++ [.get getByOrderIDQuery [.str req.OrderId]] ++
            [.exec insertQuery [.str newID.String, .str merchantID, .str req.OrderId,
              .float req.Amount, .int req.PaymentMethod,
              .int PaymentStatus_PAYMENT_STATUS_SUCCESS, .str req.ReferenceNumber,
              .str req.Provider, .time now, .time now]] } := by
        rcases hguard with h | h
        · exact Or.inl h
        · exact Or.inr fun o ho => h o (List.mem_of_mem_tail (List.mem_of_mem_tail ho))
      exact ⟨hguard2, hinv⟩

/-- In a guarded store, every sequence of `Create` calls keeps one payment per order. -/
theorem runCreates_keeps_onePaymentPerOrder (calls : List CreateCall) :
    ∀ db : DB, guarded db → onePaymentPerOrder db → onePaymentPerOrder (runCreates db calls) := by
  induction calls with
  | nil => intro db _ h; exact h
  | cons c cs ih =>
    intro db hg hi
    obtain ⟨hg2, hi2⟩ := create_keeps_onePaymentPerOrder db c.newID c.now c.merchantID c.req hg hi
    exact ih _ hg2 hi2

/-- C3, the sequence on which the code departs from the claim. From the empty store,
on a table without `UNIQUE (order_id)`: a first `Create` for order "ORD-1" succeeds; the
existence lookup of a second `Create` for "ORD-1" fails with an I/O error, the call goes
on to the insert, and the store holds two payments of the order. -/
theorem two_payments_for_one_order :
    (runCreates
        { payments := [], uniqueOrderID := false,
          outcomes := [none, none, some (.new "driver: bad connection")], calls := [] }
        [⟨sampleUUID, ⟨5⟩, "m-1", sampleRequest⟩,
          ⟨sampleUUID2, ⟨6⟩, "m-1", sampleRequest2⟩]).payments.map (fun r => r.OrderID)
      = ["ORD-1", "ORD-1"]
    ∧ ¬onePaymentPerOrder (runCreates
        { payments := [], uniqueOrderID := false,
          outcomes := [none, none, some (.new "driver: bad connection")], calls := [] }
        [⟨sampleUUID, ⟨5⟩, "m-1", sampleRequest⟩,
          ⟨sampleUUID2, ⟨6⟩, "m-1", sampleRequest2⟩]) := by
  decide

/-! ## Lookup -/

/-- `Get` by an id that no stored payment has, the read itself going through: the
usecase returns neither a payment nor an error, and `GetPayment` answers with success
and an absent payment. -/
theorem get_absent_id (db : DB) (id orderID : String)
    (hid : id ≠ "") (hread : db.next = none) (habsent : ∀ r ∈ db.payments, r.ID ≠ id) :
    (paymentUseCase.Get db { Id := id, OrderId := orderID }).2 = (none, none)
    ∧ (PaymentHandler.GetPayment db { Id := id, OrderId := orderID }).2
        = (some { Payment := none }, none) := by
  have hfind : db.payments.find? (fun r => r.ID == id) = none := by
    rw [List.find?_eq_none]
    intro r hr
    simpa using habsent r hr
  have h2 := get_ok db id hread
  rw [hfind] at h2
  have hu : (paymentUseCase.Get db { Id := id, OrderId := orderID }).2 = (none, none) := by
    simp only [paymentUseCase.Get, ne_eq, hid, not_false_eq_true, if_true]
    exact h2
  refine ⟨hu, ?_⟩
  unfold PaymentHandler.GetPayment
  rcases hg : paymentUseCase.Get db { Id := id, OrderId := orderID } with ⟨db1, p, e⟩
  rw [hg] at hu
  simp only [Prod.mk.injEq] at hu
  obtain ⟨h3, h4⟩ := hu
  subst h3 h4
  rfl

/-- `Get` by an order id that no stored payment has, with an empty id, the read itself
going through: neither a payment nor an error, and `GetPayment` answers with success and
an absent payment. -/
theorem get_absent_order (db : DB) (orderID : String)
    (horder : orderID ≠ "") (hread : db.next = none)
    (habsent : ∀ r ∈ db.payments, r.OrderID ≠ orderID) :
    (paymentUseCase.Get db { Id := "", OrderId := orderID }).2 = (none, none)
    ∧ (PaymentHandler.GetPayment db { Id := "", OrderId := orderID }).2
        = (some { Payment := none }, none) := by
  have hfind : db.payments.find? (fun r => r.OrderID == orderID) = none := by
    rw [List.find?_eq_none]
    intro r hr
    simpa using habsent r hr
  have h2 := getByOrderID_ok db orderID hread
  rw [hfind] at h2
  have hu : (paymentUseCase.Get db { Id := "", OrderId := orderID }).2 = (none, none) := by
    simp only [paymentUseCase.Get, ne_eq, not_true_eq_false, if_false, horder,
      not_false_eq_true, if_true]
    exact h2
  refine ⟨hu, ?_⟩
  unfold PaymentHandler.GetPayment
  rcases hg : paymentUseCase.Get db { Id := "", OrderId := orderID } with ⟨db1, p, e⟩
  rw [hg] at hu
  simp only [Prod.mk.injEq] at hu
  obtain ⟨h3, h4⟩ := hu
  subst h3 h4
  rfl

/-- C4, the inputs on which the code departs from the claim. In a store that holds one
payment, `Get` by an id that no payment has, and `Get` by an order id that no payment
has, return no payment and no error; `GetPayment` answers both with success and an
absent payment, not with `NotFound`. -/
theorem get_absent_is_not_an_error :
    (paymentUseCase.Get sampleDB { Id := "no-such-id", OrderId := "" }).2 = (none, none)
    ∧ (paymentUseCase.Get sampleDB { Id := "", OrderId := "no-such-order" }).2 = (none, none)
    ∧ (PaymentHandler.GetPayment sampleDB { Id := "no-such-id", OrderId := "" }).2
        = (some { Payment := none }, none)
    ∧ (PaymentHandler.GetPayment sampleDB { Id := "", OrderId := "no-such-order" }).2
        = (some { Payment := none }, none) := by
  decide

/-! ## Error kinds at the handler -/

/-- Every error of `paymentUseCase.Create` leaves `CreatePayment` as `Internal`, with the
error's message. -/
theorem createPayment_error (db : DB) (newID : UUID) (now : Time) (ctx : Context)
    (req : CreatePaymentRequest) (e : error) (hmerchant : getMerchantID ctx ≠ "")
    (h : (paymentUseCase.Create db newID now (getMerchantID ctx) req).2.2 = some e) :
    (PaymentHandler.CreatePayment db newID now ctx req).2
      = (none, some { code := .Internal, message := e.Error }) := by
  unfold PaymentHandler.CreatePayment
  simp only [hmerchant, if_false]
  rcases hc : paymentUseCase.Create db newID now (getMerchantID ctx) req with ⟨db1, p, err⟩
  rw [hc] at h
  simp only at h
  subst h
  rfl

/-- Every error of `paymentUseCase.Get` leaves `GetPayment` as `NotFound`, with the
error's message. -/
theorem getPayment_error (db : DB) (req : GetPaymentRequest) (e : error)
    (h : (paymentUseCase.Get db req).2.2 = some e) :
    (PaymentHandler.GetPayment db req).2
      = (none, some { code := .NotFound, message := e.Error }) := by
  unfold PaymentHandler.GetPayment
  rcases hc : paymentUseCase.Get db req with ⟨db1, p, err⟩
  rw [hc] at h
  simp only at h
  subst h
  rfl

/-- C7 as stated fails: with the caller's identity present, `CreatePayment` with an
empty order id and with an amount of zero is reported as `Internal`, not as
`InvalidArgument`; `CreatePayment` for an order that already has a payment is reported
as `Internal`, not as `AlreadyExists`; `GetPayment` with neither id nor order id is
reported as `NotFound`, not as `InvalidArgument`. -/
theorem error_kinds_counterexample :
    (PaymentHandler.CreatePayment sampleDB sampleUUID2 ⟨6⟩ sampleContext
        { sampleRequest with OrderId := "" }).2
      = (none, some { code := .Internal, message := "order_id is required" })
    ∧ (PaymentHandler.CreatePayment sampleDB sampleUUID2 ⟨6⟩ sampleContext
        { sampleRequest with Amount := .fin false 0 0 }).2
      = (none, some { code := .Internal, message := "amount must be greater than 0" })
    ∧ (PaymentHandler.CreatePayment sampleDB sampleUUID2 ⟨6⟩ sampleContext sampleRequest2).2
      = (none, some { code := .Internal,
                      message := "payment already exists for order_id: ORD-1" })
    ∧ (PaymentHandler.GetPayment sampleDB { Id := "", OrderId := "" }).2
      = (none, some { code := .NotFound, message := "must provide id or order_id" })
    ∧ codes.Internal ≠ codes.InvalidArgument ∧ codes.Internal ≠ codes.AlreadyExists
    ∧ codes.NotFound ≠ codes.InvalidArgument := by
  decide

/-- C7, amended. Failures reach the caller with the kind the handler assigns, one kind
per procedure. With the caller's identity present, `CreatePayment` reports an empty
order id, an amount that is zero or negative, and an order id that already has a payment
(the lookup reporting it) as `Internal`, with the usecase's message, as it does every
other error of `Create`. Without the caller's identity `CreatePayment` fails with
`Unauthenticated` before the usecase runs, so the usecase's check of the merchant id is
never the one that answers. `GetPayment` with both id and order id empty is reported as
`NotFound`, as is every other error of `Get`. -/
theorem handler_error_kinds (db : DB) (newID : UUID) (now : Time) (ctx : Context)
    (req : CreatePaymentRequest) (greq : GetPaymentRequest) :
    (getMerchantID ctx = "" →
      PaymentHandler.CreatePayment db newID now ctx req
        = (db, none, some { code := .Unauthenticated, message := "missing merchant_id" }))
    ∧ (getMerchantID ctx ≠ "" → req.OrderId = "" →
      PaymentHandler.CreatePayment db newID now ctx req
        = (db, none, some { code := .Internal, message := "order_id is required" }))
    ∧ (getMerchantID ctx ≠ "" → req.OrderId ≠ "" →
        (req.Amount.isZero = true ∨ req.Amount.isNegative = true) →
      PaymentHandler.CreatePayment db newID now ctx req
        = (db, none, some { code := .Internal, message := "amount must be greater than 0" }))
    ∧ (getMerchantID ctx ≠ "" → req.OrderId ≠ "" → req.Amount.gtZero = true →
        (∃ existing, (postgresRepo.GetByOrderID db req.OrderId).2 = (some existing, none)) →
      (PaymentHandler.CreatePayment db newID now ctx req).2
        = (none, some { code := .Internal,
                        message := "payment already exists for order_id: " ++ req.OrderId }))
    ∧ (∀ e, getMerchantID ctx ≠ "" →
        (paymentUseCase.Create db newID now (getMerchantID ctx) req).2.2 = some e →
      (PaymentHandler.CreatePayment db newID now ctx req).2
        = (none, some { code := .Internal, message := e.Error }))
    ∧ (greq.Id = "" → greq.OrderId = "" →
      PaymentHandler.GetPayment db greq
        = (db, none, some { code := .NotFound, message := "must provide id or order_id" }))
    ∧ (∀ e, (paymentUseCase.Get db greq).2.2 = some e →
      (PaymentHandler.GetPayment db greq).2
        = (none, some { code := .NotFound, message := e.Error })) := by
  refine ⟨?_, ?_, ?_, ?_, ?_, ?_, ?_⟩
  · intro h
    simp [PaymentHandler.CreatePayment, h]
  · intro hm ho
    simp [PaymentHandler.CreatePayment, hm, paymentUseCase.Create, ho, errors.New, error.Error]
  · intro hm ho ha
    have hle : req.Amount.leZero = true := by
      rw [leZero_eq]
      rcases ha with h | h <;> simp [h]
    simp [PaymentHandler.CreatePayment, hm, paymentUseCase.Create, ho, hle, errors.New,
      error.Error]
  · rintro hm ho ha ⟨existing, hrep⟩
    have hc := create_of_reported db newID now (getMerchantID ctx) req existing hrep hm ho
      (leZero_of_gtZero _ ha)
    exact createPayment_error db newID now ctx req _ hm (by rw [hc])
  · intro e hm he
    exact createPayment_error db newID now ctx req e hm he
  · intro hi ho
    simp [PaymentHandler.GetPayment, paymentUseCase.Get, hi, ho, errors.New, error.Error]
  · intro e he
    exact getPayment_error db greq e he

/-- The statements of `handler_error_kinds` at an empty order id and at a lookup with
neither id nor order id. -/
theorem handler_error_kinds_witness :
    PaymentHandler.CreatePayment sampleDB sampleUUID2 ⟨6⟩ sampleContext
        { sampleRequest with OrderId := "" }
      = (sampleDB, none, some { code := .Internal, message := "order_id is required" })
    ∧ PaymentHandler.GetPayment sampleDB { Id := "", OrderId := "" }
      = (sampleDB, none, some { code := .NotFound, message := "must provide id or order_id" }) :=
  ⟨(handler_error_kinds sampleDB sampleUUID2 ⟨6⟩ sampleContext
      { sampleRequest with OrderId := "" } { Id := "", OrderId := "" }).2.1
      (by decide) rfl,
    (handler_error_kinds sampleDB sampleUUID2 ⟨6⟩ sampleContext
      { sampleRequest with OrderId := "" } { Id := "", OrderId := "" }).2.2.2.2.2.1 rfl rfl⟩

/-! ## The statements that `List` builds -/

theorem parseCount_render : ∀ cols ∈ columnSelections,
    parseCount (countQueryBase ++ renderFilters (numbered 1 cols)) = some (numbered 1 cols) := by
  decide

theorem parsePage_render : ∀ cols ∈ columnSelections,
    parsePage (listQueryBase ++ renderFilters (numbered 1 cols)
        ++ (sprintfArg " LIMIT $" (1 + cols.length) ++ sprintfArg " OFFSET $" (1 + cols.length + 1)))
      = some (numbered 1 cols, 1 + cols.length, 1 + cols.length + 1) := by
  decide

theorem maxPlaceholder_numbered : ∀ cols ∈ columnSelections,
    maxPlaceholder (numbered 1 cols) = cols.length := by
  decide

theorem nodup_columnSelections : ∀ cols ∈ columnSelections, cols.Nodup := by
  decide

theorem noLimit_render : ∀ cols ∈ columnSelections,
    containsLit "LIMIT".toList (countQueryBase ++ renderFilters (numbered 1 cols)).toList = false
    ∧ containsLit "OFFSET".toList (countQueryBase ++ renderFilters (numbered 1 cols)).toList
        = false := by
  decide

theorem mem_columnSelections {cols : List Column} (h : cols ∈ columnSelections) :
    cols = [] ∨ cols = [.order_id] ∨ cols = [.payment_method] ∨ cols = [.status]
    ∨ cols = [.order_id, .payment_method] ∨ cols = [.order_id, .status]
    ∨ cols = [.payment_method, .status] ∨ cols = [.order_id, .payment_method, .status] := by
  simpa [columnSelections] using h

theorem value_int_beq (a b : Int) : (Value.int a == Value.int b) = (a == b) := by
  rw [Bool.eq_iff_iff]; simp

theorem value_str_beq (a b : String) : (Value.str a == Value.str b) = (a == b) := by
  rw [Bool.eq_iff_iff]; simp

/-- The row test that the engine derives from numbered conditions bound to the filter
values is the conjunction of the column comparisons. -/
theorem wherePred_numbered (req : ListPaymentsRequest) (tail : List Value) :
    ∀ cols ∈ columnSelections,
      wherePred (cols.map (filterValue req) ++ tail) (numbered 1 cols)
        = some fun r => cols.all fun col => columnValue r col == filterValue req col := by
  intro cols h
  rcases mem_columnSelections h with h | h | h | h | h | h | h | h <;> subst h <;>
    simp [wherePred, resolveFilter, bindArg, numbered, filterValue, columnValue,
      value_int_beq, value_str_beq]

theorem activeColumns_mem (req : ListPaymentsRequest) : activeColumns req ∈ columnSelections := by
  unfold activeColumns
  cases h1 : filterActive req .order_id <;> cases h2 : filterActive req .payment_method
    <;> cases h3 : filterActive req .status
    <;> simp [List.filter, h1, h2, h3, columnSelections]

theorem mem_activeColumns (req : ListPaymentsRequest) (col : Column) :
    col ∈ activeColumns req ↔ filterActive req col = true := by
  unfold activeColumns
  cases col <;> simp

theorem matchesFilters_eq (req : ListPaymentsRequest) :
    matchesFilters req
      = fun r => (activeColumns req).all fun col => columnValue r col == filterValue req col := by
  funext r
  unfold matchesFilters activeColumns
  cases h1 : filterActive req .order_id <;> cases h2 : filterActive req .payment_method
    <;> cases h3 : filterActive req .status
    <;> simp [List.filter, h1, h2, h3]

/-- A row passes the active filters exactly when it agrees with the request on every
filter that is set. -/
theorem matchesFilters_iff (req : ListPaymentsRequest) (r : paymentModel) :
    matchesFilters req r = true ↔
      ((req.OrderId ≠ "" → r.OrderID = req.OrderId)
      ∧ (req.PaymentMethod ≠ PaymentMethod_PAYMENT_METHOD_UNSPECIFIED
          → r.PaymentMethod = req.PaymentMethod)
      ∧ (req.Status ≠ PaymentStatus_PAYMENT_STATUS_UNSPECIFIED → r.Status = req.Status)) := by
  simp only [matchesFilters, filterActive, columnValue, filterValue, List.all_cons, List.all_nil,
    Bool.and_true, Bool.and_eq_true, Bool.or_eq_true, Bool.not_eq_true', bne_eq_false_iff_eq,
    value_int_beq, value_str_beq, beq_iff_eq, ne_eq]
  constructor
  · rintro ⟨h1, h2, h3⟩
    exact ⟨fun h => h1.resolve_left h, fun h => h2.resolve_left h, fun h => h3.resolve_left h⟩
  · rintro ⟨h1, h2, h3⟩
    refine ⟨?_, ?_, ?_⟩
    · by_cases h : req.OrderId = ""
      · exact Or.inl h
      · exact Or.inr (h1 h)
    · by_cases h : req.PaymentMethod = PaymentMethod_PAYMENT_METHOD_UNSPECIFIED
      · exact Or.inl h
      · exact Or.inr (h2 h)
    · by_cases h : req.Status = PaymentStatus_PAYMENT_STATUS_UNSPECIFIED
      · exact Or.inl h
      · exact Or.inr (h3 h)

/-- The locals after the filter block, in terms of the active filters. -/
theorem listFilters_eq (req : ListPaymentsRequest) :
    listFilters req =
      { query := listQueryBase ++ renderFilters (numbered 1 (activeColumns req))
        countQuery := countQueryBase ++ renderFilters (numbered 1 (activeColumns req))
        args := (activeColumns req).map (filterValue req)
        argID := 1 + (activeColumns req).length } := by
  have e1 : (req.OrderId ≠ "") = (filterActive req .order_id = true) := by
    simp [filterActive]
  have e2 : (req.PaymentMethod ≠ PaymentMethod_PAYMENT_METHOD_UNSPECIFIED)
      = (filterActive req .payment_method = true) := by simp [filterActive]
  have e3 : (req.Status ≠ PaymentStatus_PAYMENT_STATUS_UNSPECIFIED)
      = (filterActive req .status = true) := by simp [filterActive]
  unfold activeColumns listFilters
  simp only [e1, e2, e3, List.filter]
  cases filterActive req .order_id <;> cases filterActive req .payment_method
    <;> cases filterActive req .status
    <;> simp only [Bool.false_eq_true, if_false, if_true, List.filter, List.map, List.length]
    <;> rfl

theorem parseCount_listFilters (req : ListPaymentsRequest) :
    parseCount (listFilters req).countQuery = some (numbered 1 (activeColumns req)) := by
  rw [listFilters_eq]; exact parseCount_render _ (activeColumns_mem req)

theorem parsePage_listPagination (req : ListPaymentsRequest) :
    parsePage (listPagination (listFilters req) req).query
      = some (numbered 1 (activeColumns req), 1 + (activeColumns req).length,
          1 + (activeColumns req).length + 1) := by
  rw [listFilters_eq]; exact parsePage_render _ (activeColumns_mem req)

theorem listPagination_args (req : ListPaymentsRequest) :
    (listPagination (listFilters req) req).args
      = (listFilters req).args ++ [.int req.PageSize, .int (listOffset req)] := rfl

theorem listFilters_args (req : ListPaymentsRequest) :
    (listFilters req).args = (activeColumns req).map (filterValue req) := by
  rw [listFilters_eq]

/-- Numbered columns carry the numbers `k`, `k + 1`, ... in order. -/
theorem mem_numbered (col : Column) (j : Nat) :
    ∀ (cols : List Column) (k : Nat), (col, j) ∈ numbered k cols →
      ∃ i, cols[i]? = some col ∧ j = k + i := by
  intro cols
  induction cols with
  | nil => intro k h; simp [numbered] at h
  | cons c cs ih =>
    intro k h
    simp only [numbered, List.mem_cons, Prod.mk.injEq] at h
    rcases h with ⟨h1, h2⟩ | h
    · exact ⟨0, by simp [h1], by omega⟩
    · obtain ⟨i, hi, hj⟩ := ih (k + 1) h
      exact ⟨i + 1, by simpa using hi, by omega⟩

theorem exists_mem_numbered (col : Column) :
    ∀ (cols : List Column) (k : Nat), (∃ j, (col, j) ∈ numbered k cols) ↔ col ∈ cols := by
  intro cols
  induction cols with
  | nil => intro k; simp [numbered]
  | cons c cs ih =>
    intro k
    simp only [numbered, List.mem_cons, Prod.mk.injEq]
    constructor
    · rintro ⟨j, ⟨h1, -⟩ | h⟩
      · exact Or.inl h1
      · exact Or.inr ((ih (k + 1)).mp ⟨j, h⟩)
    · rintro (h | h)
      · exact ⟨k, Or.inl ⟨h, rfl⟩⟩
      · obtain ⟨j, hj⟩ := (ih (k + 1)).mpr h
        exact ⟨j, Or.inr hj⟩

theorem numbered_length (cols : List Column) : ∀ k, (numbered k cols).length = cols.length := by
  induction cols with
  | nil => intro k; rfl
  | cons c cs ih => intro k; simp [numbered, ih]

theorem numbered_map_fst (cols : List Column) :
    ∀ k, (numbered k cols).map Prod.fst = cols := by
  induction cols with
  | nil => intro k; rfl
  | cons c cs ih => intro k; simp [numbered, ih]

/-- Placeholder `$(1 + i)` of numbered conditions is bound to the value of the `i`-th
column, whatever follows the filter values in the argument list. -/
theorem bindArg_numbered (f : Column → Value) (cols : List Column) (tail : List Value)
    (col : Column) (j : Nat) (h : (col, j) ∈ numbered 1 cols) :
    bindArg (cols.map f ++ tail) j = some (f col) ∧ 1 ≤ j ∧ j ≤ cols.length := by
  obtain ⟨i, hi, hj⟩ := mem_numbered col j cols 1 h
  have hlt : i < cols.length := by
    by_contra hge
    rw [List.getElem?_eq_none (by omega)] at hi
    exact absurd hi (by simp)
  subst hj
  refine ⟨?_, by omega, by omega⟩
  have h1 : 1 + i - 1 = i := by omega
  rw [bindArg, if_neg (by omega), h1, List.get?_eq_getElem?,
    List.getElem?_append_left (by simpa using hlt), List.getElem?_map, hi]
  rfl

theorem bindArg_append_limit (vs : List Value) (x y : Value) :
    bindArg (vs ++ [x, y]) (1 + vs.length) = some x
    ∧ bindArg (vs ++ [x, y]) (1 + vs.length + 1) = some y := by
  have h1 : 1 + vs.length - 1 = vs.length := by omega
  have h2 : 1 + vs.length + 1 - 1 = vs.length + 1 := by omega
  constructor
  · rw [bindArg, if_neg (by omega), h1, List.get?_eq_getElem?,
      List.getElem?_append_right (le_refl _)]
    simp
  · rw [bindArg, if_neg (by omega), h2, List.get?_eq_getElem?,
      List.getElem?_append_right (by omega)]
    simp

/-- The count statement of a request, run on a table, counts the rows that pass the
active filters. -/
theorem countRows_listFilters (rows : List paymentModel) (req : ListPaymentsRequest) :
    countRows rows (listFilters req).countQuery (listFilters req).args
      = .ok ((rows.filter (matchesFilters req)).length : Int) := by
  have hw := wherePred_numbered req [] _ (activeColumns_mem req)
  rw [List.append_nil] at hw
  unfold countRows
  rw [parseCount_listFilters]
  simp only [listFilters_eq, maxPlaceholder_numbered _ (activeColumns_mem req), List.length_map,
    if_true, hw, matchesFilters_eq]

/-- The page statement of a request, run on a table: the rows that pass the active
filters, without the first `offset` ones, cut to `PageSize` rows. -/
theorem selectRows_listPagination (rows : List paymentModel) (req : ListPaymentsRequest)
    (hsize : 0 ≤ req.PageSize) (hoff : 0 ≤ listOffset req) :
    selectRows rows (listPagination (listFilters req) req).query
        (listPagination (listFilters req) req).args
      = .ok (((rows.filter (matchesFilters req)).drop (listOffset req).toNat).take
          req.PageSize.toNat) := by
  have hw := wherePred_numbered req [.int req.PageSize, .int (listOffset req)] _
    (activeColumns_mem req)
  have hb := bindArg_append_limit ((activeColumns req).map (filterValue req))
    (.int req.PageSize) (.int (listOffset req))
  rw [List.length_map] at hb
  unfold selectRows
  rw [parsePage_listPagination, listPagination_args]
  simp only [listFilters_eq, maxPlaceholder_numbered _ (activeColumns_mem req), List.length_map,
    List.length_append, List.length_cons, List.length_nil, hw, bindCount, hb.1, hb.2, hsize,
    hoff, if_true, matchesFilters_eq]
  rw [if_pos (by omega)]

/-! ## `int32` arithmetic -/

theorem wrapInt32_of_isInt32 (x : Int) (h : isInt32 x) : wrapInt32 x = x := by
  unfold isInt32 at h
  unfold wrapInt32
  omega

theorem isInt32_wrapInt32 (x : Int) : isInt32 (wrapInt32 x) := by
  unfold isInt32 wrapInt32
  omega

theorem wrapInt32_modEq (x : Int) : wrapInt32 x ≡ x [ZMOD 4294967296] := by
  unfold wrapInt32
  have h : (x + 2147483648) % 4294967296 ≡ x + 2147483648 [ZMOD 4294967296] :=
    Int.mod_modEq _ _
  have h2 := h.sub_right 2147483648
  simpa using h2

theorem wrapInt32_congr (x y : Int) (h : x ≡ y [ZMOD 4294967296]) :
    wrapInt32 x = wrapInt32 y := by
  unfold wrapInt32
  have h2 : (x + 2147483648) % 4294967296 = (y + 2147483648) % 4294967296 :=
    h.add_right 2147483648
  rw [h2]

/-- The offset of `List` is the product `(Page - 1) * PageSize` reduced to `int32`. -/
theorem listOffset_eq (req : ListPaymentsRequest) :
    listOffset req = wrapInt32 ((req.Page - 1) * req.PageSize) := by
  unfold listOffset
  exact wrapInt32_congr _ _ ((wrapInt32_modEq (req.Page - 1)).mul_right req.PageSize)

/-! ## Execution of `List` -/

/-- The count read of `List`, by the outcome of its driver call. -/
theorem getContextInt32_listFilters (db : DB) (req : ListPaymentsRequest) :
    db.GetContextInt32 (listFilters req).countQuery (listFilters req).args =
      ({ db with
          outcomes := db.outcomes.tail
          calls := db.calls ++ [.get (listFilters req).countQuery (listFilters req).args] },
        if db.next = none ∧ ((db.payments.filter (matchesFilters req)).length : Int) ≤ 2147483647
          then ((db.payments.filter (matchesFilters req)).length : Int) else 0,
        if db.next = none then
          if ((db.payments.filter (matchesFilters req)).length : Int) ≤ 2147483647 then none
          else some (.new "sql: Scan error: value out of range")
        else db.next) := by
  unfold DB.GetContextInt32
  simp only [DB.enter]
  cases hn : db.next with
  | some e => simp
  | none =>
    simp only [countRows_listFilters]
    by_cases hle : ((db.payments.filter (matchesFilters req)).length : Int) ≤ 2147483647
    · simp [hle]
    · simp [hle]

/-- A `List` that returns without error returns, as total, the number of stored rows that
pass the active filters. -/
theorem list_total (db db' : DB) (req : ListPaymentsRequest) (ps : List Payment) (t : Int)
    (h : postgresRepo.List db req = (db', ps, t, none)) :
    t = ((db.payments.filter (matchesFilters req)).length : Int) := by
  unfold postgresRepo.List at h
  simp only at h
  rw [getContextInt32_listFilters] at h
  by_cases hc : db.next = none ∧
      ((db.payments.filter (matchesFilters req)).length : Int) ≤ 2147483647
  · simp only [hc.1, hc.2, and_self, if_true] at h
    split at h
    · simp at h
    · simp only [Prod.mk.injEq, and_true] at h
      exact h.2.2.symm
  · exfalso
    by_cases hn : db.next = none
    · have hle : ¬((db.payments.filter (matchesFilters req)).length : Int) ≤ 2147483647 :=
        fun hle => hc ⟨hn, hle⟩
      simp [hn, hle] at h
    · cases hx : db.next with
      | none => exact hn hx
      | some e => simp [hx] at h

/-- With no failure of the two reads, a count within `int32`, and a page size and an
offset that are not negative, `List` returns the page and the total. -/
theorem list_ok (db : DB) (req : ListPaymentsRequest)
    (hcount : db.next = none) (hpage : db.outcomes.tail.head?.join = none)
    (hfit : ((db.payments.filter (matchesFilters req)).length : Int) ≤ 2147483647)
    (hsize : 0 ≤ req.PageSize) (hoff : 0 ≤ listOffset req) :
    (postgresRepo.List db req).2 =
      ((((db.payments.filter (matchesFilters req)).drop (listOffset req).toNat).take
          req.PageSize.toNat).map paymentModel.toProto,
        ((db.payments.filter (matchesFilters req)).length : Int), none) := by
  unfold postgresRepo.List
  simp only
  rw [getContextInt32_listFilters]
  simp only [hcount, hfit, and_self, if_true]
  unfold DB.SelectContext
  simp only [DB.enter]
  have hn : DB.next { db with
      outcomes := db.outcomes.tail
      calls := db.calls ++ [.get (listFilters req).countQuery (listFilters req).args] }
      = none := hpage
  simp only [hn, selectRows_listPagination _ req hsize hoff]

/-! ## Listing -/

/-- C8. The count read of `List` has exactly the filter conditions of the page read,
bound to the same filter values (the page read only appends the `LIMIT` and `OFFSET`
arguments), and its text has neither `LIMIT` nor `OFFSET`. For two requests that differ
only in `Page` and `PageSize` the count read is the same text with the same arguments;
whenever `List` returns, the total is the number of stored rows that pass the active
filters, so it is the same for both on stores that hold the same payments; and with no
failing read, a count within `int32`
and a page size and offset that are not negative, `List` does return that total. -/
theorem total_count_independent_of_pagination (db dbB : DB) (req req2 : ListPaymentsRequest)
    (hpayments : dbB.payments = db.payments)
    (horder : req2.OrderId = req.OrderId) (hmethod : req2.PaymentMethod = req.PaymentMethod)
    (hstatus : req2.Status = req.Status) :
    (∃ cs a b,
        parseCount (listFilters req).countQuery = some cs
        ∧ parsePage (listPagination (listFilters req) req).query = some (cs, a, b)
        ∧ (listPagination (listFilters req) req).args
            = (listFilters req).args ++ [.int req.PageSize, .int (listOffset req)]
        ∧ (listFilters req).args.length = cs.length
        ∧ ∀ c ∈ cs, bindArg (listPagination (listFilters req) req).args c.2
            = bindArg (listFilters req).args c.2)
    ∧ containsLit "LIMIT".toList (listFilters req).countQuery.toList = false
    ∧ containsLit "OFFSET".toList (listFilters req).countQuery.toList = false
    ∧ (listFilters req2).countQuery = (listFilters req).countQuery
    ∧ (listFilters req2).args = (listFilters req).args
    ∧ (∀ db1 ps1 t1 db2 ps2 t2,
        postgresRepo.List db req = (db1, ps1, t1, none) →
        postgresRepo.List dbB req2 = (db2, ps2, t2, none) →
        t1 = t2 ∧ t1 = ((db.payments.filter (matchesFilters req)).length : Int))
    ∧ (db.next = none → db.outcomes.tail.head?.join = none →
        ((db.payments.filter (matchesFilters req)).length : Int) ≤ 2147483647 →
        0 ≤ req.PageSize → 0 ≤ listOffset req →
        (postgresRepo.List db req).2.2
          = (((db.payments.filter (matchesFilters req)).length : Int), none)) := by
  have hsame : listFilters req2 = listFilters req := by
    unfold listFilters
    rw [horder, hmethod, hstatus]
  have hmatch : matchesFilters req2 = matchesFilters req := by
    funext r
    unfold matchesFilters filterActive filterValue
    rw [horder, hmethod, hstatus]
  refine ⟨⟨numbered 1 (activeColumns req), _, _, parseCount_listFilters req,
    parsePage_listPagination req, listPagination_args req, ?_, ?_⟩, ?_, ?_, ?_, ?_, ?_, ?_⟩
  · rw [listFilters_args, List.length_map, numbered_length]
  · intro c hc
    rw [listPagination_args, listFilters_args]
    have h1 := bindArg_numbered (filterValue req) (activeColumns req)
      [.int req.PageSize, .int (listOffset req)] c.1 c.2 hc
    have h2 := bindArg_numbered (filterValue req) (activeColumns req) [] c.1 c.2 hc
    rw [List.append_nil] at h2
    rw [h1.1, h2.1]
  · rw [listFilters_eq]
    exact (noLimit_render _ (activeColumns_mem req)).1
  · rw [listFilters_eq]
    exact (noLimit_render _ (activeColumns_mem req)).2
  · rw [hsame]
  · rw [hsame]
  · intro db1 ps1 t1 db2 ps2 t2 h1 h2
    have e1 := list_total db db1 req ps1 t1 h1
    have e2 := list_total dbB db2 req2 ps2 t2 h2
    rw [hmatch, hpayments] at e2
    exact ⟨by rw [e1, e2], e1⟩
  · intro hcount hpage hfit hsize hoff
    rw [list_ok db req hcount hpage hfit hsize hoff]

/-- The hypotheses of `total_count_independent_of_pagination` hold for page 1 of size
10 and page 3 of size 1, with no filter, on the store that holds one payment: both
return the total 1. -/
theorem total_count_independent_of_pagination_witness :
    (listFilters ⟨"", 0, 0, 3, 1⟩).countQuery = (listFilters ⟨"", 0, 0, 1, 10⟩).countQuery
    ∧ (postgresRepo.List sampleDB ⟨"", 0, 0, 1, 10⟩).2.2 = (1, none)
    ∧ (postgresRepo.List sampleDB ⟨"", 0, 0, 3, 1⟩).2.2 = (1, none) :=
  ⟨(total_count_independent_of_pagination sampleDB sampleDB ⟨"", 0, 0, 1, 10⟩ ⟨"", 0, 0, 3, 1⟩
      rfl rfl rfl rfl).2.2.2.1,
    (total_count_independent_of_pagination sampleDB sampleDB ⟨"", 0, 0, 1, 10⟩ ⟨"", 0, 0, 3, 1⟩
      rfl rfl rfl rfl).2.2.2.2.2.2 (by decide) (by decide) (by decide) (by decide) (by decide),
    (total_count_independent_of_pagination sampleDB sampleDB ⟨"", 0, 0, 3, 1⟩ ⟨"", 0, 0, 1, 10⟩
      rfl rfl rfl rfl).2.2.2.2.2.2 (by decide) (by decide) (by decide) (by decide) (by decide)⟩

/-- C9. The predicate that `List` builds, as the engine reads it from the statement
text, holds a condition on `order_id` exactly when the request's order id is not empty,
one on `payment_method` and one on `status` exactly when these are not the "unspecified"
sentinel, no column twice and nothing else; the placeholder of each condition is bound
to the request's own value for that column; the page read carries the same conditions;
a row passes the predicate exactly when it equals the request on every filter that is
set (a conjunction); and with no filter set the statements are the bare ones, with no
condition and no filter argument. -/
theorem list_filters_are_the_active_filters (req : ListPaymentsRequest) :
    ∃ cs, parseCount (listFilters req).countQuery = some cs
      ∧ (∃ a b, parsePage (listPagination (listFilters req) req).query = some (cs, a, b))
      ∧ ((∃ k, (Column.order_id, k) ∈ cs) ↔ req.OrderId ≠ "")
      ∧ ((∃ k, (Column.payment_method, k) ∈ cs)
          ↔ req.PaymentMethod ≠ PaymentMethod_PAYMENT_METHOD_UNSPECIFIED)
      ∧ ((∃ k, (Column.status, k) ∈ cs)
          ↔ req.Status ≠ PaymentStatus_PAYMENT_STATUS_UNSPECIFIED)
      ∧ (cs.map Prod.fst).Nodup
      ∧ cs.length = (listFilters req).args.length
      ∧ (∀ col k, (col, k) ∈ cs →
          bindArg (listFilters req).args k = some (filterValue req col)
          ∧ bindArg (listPagination (listFilters req) req).args k
              = some (filterValue req col))
      ∧ (∃ p, wherePred (listFilters req).args cs = some p
          ∧ ∀ r, p r = true ↔
            ((req.OrderId ≠ "" → r.OrderID = req.OrderId)
            ∧ (req.PaymentMethod ≠ PaymentMethod_PAYMENT_METHOD_UNSPECIFIED
                → r.PaymentMethod = req.PaymentMethod)
            ∧ (req.Status ≠ PaymentStatus_PAYMENT_STATUS_UNSPECIFIED
                → r.Status = req.Status)))
      ∧ (req.OrderId = "" → req.PaymentMethod = PaymentMethod_PAYMENT_METHOD_UNSPECIFIED →
          req.Status = PaymentStatus_PAYMENT_STATUS_UNSPECIFIED →
          cs = [] ∧ (listFilters req).args = []
          ∧ (listFilters req).countQuery = countQueryBase
          ∧ (listFilters req).query = listQueryBase) := by
  refine ⟨numbered 1 (activeColumns req), parseCount_listFilters req,
    ⟨_, _, parsePage_listPagination req⟩, ?_, ?_, ?_, ?_, ?_, ?_, ?_, ?_⟩
  · rw [exists_mem_numbered, mem_activeColumns]
    simp [filterActive]
  · rw [exists_mem_numbered, mem_activeColumns]
    simp [filterActive]
  · rw [exists_mem_numbered, mem_activeColumns]
    simp [filterActive]
  · rw [numbered_map_fst]
    exact nodup_columnSelections _ (activeColumns_mem req)
  · rw [listFilters_args, List.length_map, numbered_length]
  · intro col k hmem
    rw [listPagination_args, listFilters_args]
    have h1 := bindArg_numbered (filterValue req) (activeColumns req)
      [.int req.PageSize, .int (listOffset req)] col k hmem
    have h2 := bindArg_numbered (filterValue req) (activeColumns req) [] col k hmem
    rw [List.append_nil] at h2
    exact ⟨h2.1, h1.1⟩
  · have hw := wherePred_numbered req [] _ (activeColumns_mem req)
    rw [List.append_nil] at hw
    refine ⟨_, by rw [listFilters_args]; exact hw, ?_⟩
    intro r
    rw [← matchesFilters_iff]
    rw [matchesFilters_eq]
  · intro h1 h2 h3
    have hnone : activeColumns req = [] := by
      unfold activeColumns
      simp [List.filter, filterActive, h1, h2, h3]
    rw [listFilters_eq, hnone]
    exact ⟨rfl, rfl, rfl, rfl⟩

/-- C10 as stated fails: page 65537 with page size 65536, both `int32` values, binds the
offset 0, while `(page - 1) * page_size` is 4294967296. -/
theorem offset_counterexample :
    isInt32 65537 ∧ isInt32 65536
    ∧ listOffset ⟨"", 0, 0, 65537, 65536⟩ = 0
    ∧ (listPagination (listFilters ⟨"", 0, 0, 65537, 65536⟩) ⟨"", 0, 0, 65537, 65536⟩).args
        = [.int 65536, .int 0]
    ∧ ((65537 : Int) - 1) * 65536 = 4294967296
    ∧ listOffset ⟨"", 0, 0, 65537, 65536⟩ ≠ ((65537 : Int) - 1) * 65536 := by
  decide

/-- C10, amended. The `LIMIT` and `OFFSET` placeholders of the page read are the two
numbered directly after the filter placeholders and are bound, in that order, to
`PageSize` and to the offset, the last two arguments. The offset is `(Page - 1) *
PageSize` computed in `int32`, that is reduced by two's-complement wraparound; it is the
integer `(Page - 1) * PageSize` whenever this product is an `int32` value, so page 1
starts at offset 0. When page size and offset are not negative the read yields the rows
that pass the filters, without the first `offset` ones, cut to `PageSize` rows. -/
theorem limit_offset_binding (req : ListPaymentsRequest) :
    ∃ cs a b, parsePage (listPagination (listFilters req) req).query = some (cs, a, b)
      ∧ (∀ c ∈ cs, 1 ≤ c.2 ∧ c.2 ≤ cs.length)
      ∧ a = cs.length + 1 ∧ b = cs.length + 2
      ∧ (listPagination (listFilters req) req).args.length = cs.length + 2
      ∧ bindArg (listPagination (listFilters req) req).args a = some (.int req.PageSize)
      ∧ bindArg (listPagination (listFilters req) req).args b = some (.int (listOffset req))
      ∧ listOffset req = wrapInt32 ((req.Page - 1) * req.PageSize)
      ∧ isInt32 (listOffset req)
      ∧ (isInt32 ((req.Page - 1) * req.PageSize) →
          listOffset req = (req.Page - 1) * req.PageSize)
      ∧ (req.Page = 1 → listOffset req = 0)
      ∧ (0 ≤ req.PageSize → 0 ≤ listOffset req → ∀ rows : List paymentModel,
          selectRows rows (listPagination (listFilters req) req).query
              (listPagination (listFilters req) req).args
            = .ok (((rows.filter (matchesFilters req)).drop (listOffset req).toNat).take
                req.PageSize.toNat)
          ∧ (((rows.filter (matchesFilters req)).drop (listOffset req).toNat).take
                req.PageSize.toNat).length ≤ req.PageSize.toNat) := by
  have hb := bindArg_append_limit ((activeColumns req).map (filterValue req))
    (.int req.PageSize) (.int (listOffset req))
  rw [List.length_map] at hb
  refine ⟨numbered 1 (activeColumns req), 1 + (activeColumns req).length,
    1 + (activeColumns req).length + 1, parsePage_listPagination req, ?_, ?_, ?_, ?_, ?_, ?_,
    listOffset_eq req, ?_, ?_, ?_, ?_⟩
  · intro c hc
    have h := bindArg_numbered (filterValue req) (activeColumns req) [] c.1 c.2 hc
    rw [numbered_length]
    exact h.2
  · rw [numbered_length]; omega
  · rw [numbered_length]; omega
  · rw [listPagination_args, listFilters_args, numbered_length]
    simp
  · rw [listPagination_args, listFilters_args]
    exact hb.1
  · rw [listPagination_args, listFilters_args]
    exact hb.2
  · rw [listOffset_eq]
    exact isInt32_wrapInt32 _
  · intro h
    rw [listOffset_eq]
    exact wrapInt32_of_isInt32 _ h
  · intro h
    rw [listOffset_eq, h]
    simp [wrapInt32]
  · intro hsize hoff rows
    exact ⟨selectRows_listPagination rows req hsize hoff, List.length_take_le _ _⟩

/-- The statements of `limit_offset_binding` at page 3 of size 20 with a status
filter: the offset is 40. -/
theorem limit_offset_binding_witness :
    listOffset ⟨"", 0, 1, 3, 20⟩ = (3 - 1) * 20
    ∧ listOffset ⟨"", 0, 1, 1, 20⟩ = 0 := by
  constructor
  · obtain ⟨_, _, _, -, -, -, -, -, -, -, -, -, h, -, -⟩ :=
      limit_offset_binding ⟨"", 0, 1, 3, 20⟩
    exact h (by decide)
  · obtain ⟨_, _, _, -, -, -, -, -, -, -, -, -, -, h, -⟩ :=
      limit_offset_binding ⟨"", 0, 1, 1, 20⟩
    exact h rfl

end Omnipos
